import Mathlib

/-!
Shallow embedding of the `python-rsrcfork` library (a reader for classic
Mac OS resource-fork data) and proofs about its specification claims.

The repository snapshot contains three generations of the code base:
* `src/rsrcfork.py` — the old single-file module (namespace `RF1` below),
* `src/rsrcfork/…` — the middle package layout (`Api`, `CompressOld`,
  `Dcmp0Old`, `Dcmp2Old`),
* `src/src/rsrcfork/…` — the new package layout (`Common`, `Dcmp0New`).

Python byte strings are modelled as `List Nat` (each element a byte value),
Python `int` as `Int`/`Nat`, exceptions as an `Except Err _` result, and
binary streams as the list of bytes not yet consumed (or an explicit
position into an immutable byte list for seekable access).
-/

namespace Rsrcfork

/-- Kinds of exception the Python code can raise.  Message strings are not
modelled; only the exception class matters for the claims. -/
inductive Err where
  /-- `rsrcfork.compress.common.DecompressError` -/
  | decompressError
  /-- `rsrcfork.api.InvalidResourceFileError` -/
  | invalidResourceFile
  /-- Python `struct.error` escaping uncaught -/
  | structError
  /-- Python `IndexError` escaping uncaught -/
  | indexError
  /-- Python `KeyError` escaping uncaught -/
  | keyError
  /-- Python `AttributeError` escaping uncaught -/
  | attributeError
  /-- Python `ValueError` escaping uncaught -/
  | valueError
  /-- Python `OverflowError` escaping uncaught -/
  | overflowError
  /-- A failing Python `assert` statement -/
  | assertionError
  deriving DecidableEq, Repr

/-- `int.from_bytes(bs, "big", signed=False)`. -/
def beBytesToNat (bs : List Nat) : Nat :=
  bs.foldl (fun acc b => acc * 256 + b) 0

/-- `int.from_bytes(bs, "big", signed=True)`: two's-complement value of a
big-endian byte string. -/
def beBytesToInt (bs : List Nat) : Int :=
  let v := beBytesToNat bs
  if v < 2 ^ (8 * bs.length - 1) then (v : Int) else (v : Int) - 2 ^ (8 * bs.length)

/-- `v.to_bytes(len, "big", signed=False)` for an in-range value:
the `len` big-endian bytes of `v`. -/
def natToBytesBE (len v : Nat) : List Nat :=
  (List.range len).map (fun k => v / 256 ^ (len - 1 - k) % 256)

/-- `v.to_bytes(len, "big", signed=False)`, raising `OverflowError` when the
value does not fit (`v ≥ 256 ^ len`). -/
def natToBytesBEChecked (len v : Nat) : Except Err (List Nat) :=
  if v < 256 ^ len then .ok (natToBytesBE len v) else .error .overflowError

/-- `v.to_bytes(len, "big", signed=True)`, raising `OverflowError` when the
signed value does not fit in `len` bytes. -/
def intToBytesBESigned (len : Nat) (v : Int) : Except Err (List Nat) :=
  if -(2 ^ (8 * len - 1) : Int) ≤ v ∧ v < 2 ^ (8 * len - 1) then
    .ok (natToBytesBE len (v % (2 ^ (8 * len))).toNat)
  else .error .overflowError

/-- `stream.read(n)` on a forward-only stream modelled as its remaining
bytes: returns up to `n` bytes and the remaining stream. -/
def streamRead (s : List Nat) (n : Nat) : List Nat × List Nat :=
  (s.take n, s.drop n)

namespace Common

/-!
Embedding of `src/src/rsrcfork/compress/common.py` (the new-layout common
module for compressed resources).
-/

/-- `common.read_exact(stream, n)`: read exactly `n` bytes or raise
`DecompressError` (it wraps `_io_utils.read_exact`, converting the
`EOFError` into a `DecompressError`). -/
def read_exact (s : List Nat) (n : Nat) : Except Err (List Nat × List Nat) :=
  if n ≤ s.length then .ok (s.take n, s.drop n) else .error .decompressError

/-- `common.read_variable_length_integer(stream)`
(`src/src/rsrcfork/compress/common.py:119`): the shared 1/2/5-byte signed
variable-length integer decoder used by the `0xfe` codes of dcmp0/dcmp1. -/
def read_variable_length_integer (s : List Nat) : Except Err (Int × List Nat) := do
  let (h, s1) ← read_exact s 1
  let head := h.headI
  if head = 0xff then
    let (bs, s2) ← read_exact s1 4
    pure (beBytesToInt bs, s2)
  else if 0x80 ≤ head then
    let (b2, s2) ← read_exact s1 1
    pure (beBytesToInt [(((head : Int) - 0xc0) % 256).toNat, b2.headI], s2)
  else
    pure (beBytesToInt h, s1)

/-- The parsed common header of a compressed resource
(`CompressedHeaderInfo` and its two subclasses in
`src/src/rsrcfork/compress/common.py`). -/
inductive CompressedHeaderInfo where
  | type8 (header_length compression_type decompressed_length : Nat)
      (dcmp_id : Int)
      (working_buffer_fractional_size expansion_buffer_size : Nat)
  | type9 (header_length compression_type decompressed_length : Nat)
      (dcmp_id : Int) (parameters : List Nat)
  deriving DecidableEq, Repr

/-- The `decompressed_length` attribute of a parsed header. -/
def CompressedHeaderInfo.decompressed_length : CompressedHeaderInfo → Nat
  | .type8 _ _ dl _ _ _ => dl
  | .type9 _ _ dl _ _ => dl

/-- The `header_length` attribute of a parsed header. -/
def CompressedHeaderInfo.header_length : CompressedHeaderInfo → Nat
  | .type8 hl _ _ _ _ _ => hl
  | .type9 hl _ _ _ _ => hl

/-- `CompressedHeaderInfo.parse_stream`
(`src/src/rsrcfork/compress/common.py:41`): reads the 18-byte compressed
resource header (`>4sHHI6s`) and validates it.  `stream.read(18)` returns
up to 18 bytes; `struct.unpack` raises (turned into a `DecompressError`)
when fewer were available. -/
def CompressedHeaderInfo.parse_stream (s : List Nat) : Except Err CompressedHeaderInfo :=
  let bs := s.take 18
  if bs.length ≠ 18 then .error .decompressError
  else
    let signature := bs.take 4
    let header_length := beBytesToNat ((bs.drop 4).take 2)
    let compression_type := beBytesToNat ((bs.drop 6).take 2)
    let decompressed_length := beBytesToNat ((bs.drop 8).take 4)
    let remainder := bs.drop 12
    if signature ≠ [0xa8, 0x9f, 0x65, 0x72] then .error .decompressError
    else if ¬ (header_length = 0 ∨ header_length = 0x12) then .error .decompressError
    else if compression_type = 0x0801 then
      let working_buffer_fractional_size := remainder.headI
      let expansion_buffer_size := (remainder.drop 1).headI
      let dcmp_id := beBytesToInt ((remainder.drop 2).take 2)
      let reserved := beBytesToNat ((remainder.drop 4).take 2)
      if reserved ≠ 0 then .error .decompressError
      else .ok (.type8 header_length compression_type decompressed_length
        dcmp_id working_buffer_fractional_size expansion_buffer_size)
    else if compression_type = 0x0901 then
      .ok (.type9 header_length compression_type decompressed_length
        (beBytesToInt (remainder.take 2)) (remainder.drop 2))
    else .error .decompressError

end Common

namespace Api

/-!
Embedding of the container-parsing parts of `src/rsrcfork/api.py`
(the middle-layout `ResourceFile` class).  The underlying stream is an
immutable byte list together with an explicit read position.
-/

/-- `ResourceFile._read_exact` / `_stream_unpack`: read exactly `n` bytes at
`pos`, raising `InvalidResourceFileError` on a short read. -/
def stream_unpack (data : List Nat) (pos n : Nat) : Except Err (List Nat × Nat) :=
  if pos + n ≤ data.length then .ok (((data.drop pos).take n), pos + n)
  else .error .invalidResourceFile

/-- The count decoding used by `ResourceFile._read_all_resource_types`
(`api.py:486` and `api.py:494`): a stored count-minus-one field is turned
into a count as `(stored + 1) % 0x10000`. -/
def decodeMinusOneCount (stored : Nat) : Nat :=
  (stored + 1) % 0x10000

/-- The packed attributes/data-offset split of
`ResourceFile._read_all_references` (`api.py:512-513`):
`attributes = v >> 24`, `data_offset = v & ((1 << 24) - 1)`. -/
def splitAttributesAndDataOffset (v : Nat) : Nat × Nat :=
  (v >>> 24, v &&& ((1 <<< 24) - 1))

/-- The header fields read by `ResourceFile._read_header` (`api.py:450`). -/
structure HeaderInfo where
  data_offset : Nat
  map_offset : Nat
  data_length : Nat
  map_length : Nat
  header_system_data : List Nat
  header_application_data : List Nat
  deriving DecidableEq, Repr

/-- `ResourceFile._read_header` (`api.py:450`): unpack the 256-byte
`>IIII112s128s` resource file header starting at stream position 0 and
check that the position after the header (256) equals the declared data
offset. -/
def read_header (data : List Nat) : Except Err (HeaderInfo × Nat) := do
  let (bs, pos) ← stream_unpack data 0 256
  let hdr : HeaderInfo :=
    { data_offset := beBytesToNat (bs.take 4)
      map_offset := beBytesToNat ((bs.drop 4).take 4)
      data_length := beBytesToNat ((bs.drop 8).take 4)
      map_length := beBytesToNat ((bs.drop 12).take 4)
      header_system_data := (bs.drop 16).take 112
      header_application_data := (bs.drop 128).take 128 }
  if pos ≠ hdr.data_offset then .error .invalidResourceFile
  else .ok (hdr, pos)

/-- `ResourceFile._read_map_header` (`api.py:467`): unpack the 28-byte
`>16x4x2xHHH` map header at the current position. -/
def read_map_header (data : List Nat) (pos : Nat) :
    Except Err ((Nat × Nat × Nat) × Nat) := do
  let (bs, pos) ← stream_unpack data pos 28
  let file_attributes := beBytesToNat ((bs.drop 22).take 2)
  let map_type_list_offset := beBytesToNat ((bs.drop 24).take 2)
  let map_name_list_offset := beBytesToNat ((bs.drop 26).take 2)
  .ok ((file_attributes, map_type_list_offset, map_name_list_offset), pos)

/-- The loop body of `ResourceFile._read_all_resource_types` (`api.py:488`):
read `n` consecutive 8-byte `>4sHH` type entries, decoding each stored
count-minus-one field with `decodeMinusOneCount`. -/
def read_resource_type_entries (data : List Nat) (pos n : Nat) :
    Except Err (List (List Nat × Nat × Nat) × Nat) :=
  match n with
  | 0 => .ok ([], pos)
  | n + 1 => do
    let (bs, pos1) ← stream_unpack data pos 8
    let resource_type := bs.take 4
    let count := decodeMinusOneCount (beBytesToNat ((bs.drop 4).take 2))
    let reflist_offset := beBytesToNat ((bs.drop 6).take 2)
    let (rest, pos2) ← read_resource_type_entries data pos1 n
    .ok ((resource_type, count, reflist_offset) :: rest, pos2)

/-- `ResourceFile._read_all_resource_types` (`api.py:480`): read the 2-byte
type-list length (count minus one) and then that many type entries, in
on-disk order. -/
def read_all_resource_types (data : List Nat) (pos : Nat) :
    Except Err (List (List Nat × Nat × Nat) × Nat) := do
  let (bs, pos1) ← stream_unpack data pos 2
  let type_list_length := decodeMinusOneCount (beBytesToNat bs)
  read_resource_type_entries data pos1 type_list_length

/-- Update an ordered association list the way assignment updates a Python
`OrderedDict`: replace the value at an existing key in place, otherwise
append the new binding at the end. -/
def dictUpdate {α β : Type} [DecidableEq α] (k : α) (v : β) :
    List (α × β) → List (α × β)
  | [] => [(k, v)]
  | (k', v') :: rest =>
    if k' = k then (k', v) :: rest else (k', v') :: dictUpdate k v rest

/-- One parsed resource reference (`api.py:505-515`): resource ID, name
offset, attributes, data offset. -/
structure Reference where
  id : Int
  name_offset : Nat
  attributes : Nat
  data_offset : Nat
  deriving DecidableEq, Repr

/-- The inner loop of `ResourceFile._read_all_references` (`api.py:505`):
read `n` consecutive 12-byte `>hHI4x` reference entries, splitting each
packed attributes/offset field. -/
def read_reference_entries (data : List Nat) (pos n : Nat) :
    Except Err (List (Int × Reference) × Nat) :=
  match n with
  | 0 => .ok ([], pos)
  | n + 1 => do
    let (bs, pos1) ← stream_unpack data pos 12
    let resource_id := beBytesToInt (bs.take 2)
    let name_offset := beBytesToNat ((bs.drop 2).take 2)
    let packed := beBytesToNat ((bs.drop 4).take 4)
    let split := splitAttributesAndDataOffset packed
    let ref : Reference :=
      { id := resource_id, name_offset := name_offset
        attributes := split.1, data_offset := split.2 }
    let (rest, pos2) ← read_reference_entries data pos1 n
    .ok ((resource_id, ref) :: rest, pos2)

/-- `ResourceFile._read_all_references` (`api.py:497`): for each type, in
table order, read that type's reference entries and key them by ID. -/
def read_all_references (data : List Nat) (pos : Nat)
    (counts : List (List Nat × Nat)) :
    Except Err (List (List Nat × List (Int × Reference)) × Nat) :=
  match counts with
  | [] => .ok ([], pos)
  | (resource_type, count) :: rest => do
    let (entries, pos1) ← read_reference_entries data pos count
    let resmap := entries.foldl (fun m e => dictUpdate e.1 e.2 m) []
    let (restRefs, pos2) ← read_all_references data pos1 rest
    .ok ((resource_type, resmap) :: restRefs, pos2)

/-- The fully initialised state of an `api.ResourceFile`. -/
structure ResourceFileData where
  data_offset : Nat
  map_offset : Nat
  data_length : Nat
  map_length : Nat
  file_attributes : Nat
  map_type_list_offset : Nat
  map_name_list_offset : Nat
  reference_counts : List (List Nat × Nat)
  references : List (List Nat × List (Int × Reference))
  deriving DecidableEq, Repr

/-- `ResourceFile.__init__` (`api.py:404`) reduced to its parsing sequence:
read the header at position 0, seek to the map offset, read the map header,
the type list and all reference lists.  Any failure aborts the whole open
(the Python code closes the stream and re-raises), so no partial container
is ever produced. -/
def ResourceFile.open (data : List Nat) : Except Err ResourceFileData := do
  let (hdr, _) ← read_header data
  let pos := hdr.map_offset
  let ((file_attributes, tlo, nlo), pos1) ← read_map_header data pos
  let (rawTypes, pos2) ← read_all_resource_types data pos1
  let reference_counts :=
    rawTypes.foldl (fun m e => dictUpdate e.1 e.2.1 m) []
  let (references, _) ← read_all_references data pos2 reference_counts
  .ok
    { data_offset := hdr.data_offset, map_offset := hdr.map_offset
      data_length := hdr.data_length, map_length := hdr.map_length
      file_attributes := file_attributes
      map_type_list_offset := tlo, map_name_list_offset := nlo
      reference_counts := reference_counts, references := references }

end Api

end Rsrcfork

namespace Rsrcfork

/-- Split a byte list into the 2-byte slices `[data[i:i+2] for i in
range(0, len(data), 2)]` used to build the fixed lookup tables. -/
def chunkPairs : List Nat → List (List Nat)
  | a :: b :: rest => [a, b] :: chunkPairs rest
  | [a] => [[a]]
  | [] => []

namespace Dcmp0Old

/-!
Embedding of `src/rsrcfork/compress/dcmp0.py` (the buffered, bytes-based
dcmp0 decompressor).  Its `0xfe` extended codes call the data/position
based variable-length integer reader, whose matching definition in this
repository is `_read_variable_length_integer` in
`src/rsrcfork/compress.py:148`.
-/

/-- `TABLE_DATA` from `src/rsrcfork/compress/dcmp0.py:6` (the same byte
literal also appears in `src/src/rsrcfork/compress/dcmp0.py:8`). -/
def TABLE_DATA : List Nat := [
  0, 0, 78, 186, 0, 8, 78, 117, 0, 12, 78, 173, 32, 83, 47, 11,
  97, 0, 0, 16, 112, 0, 47, 0, 72, 110, 32, 80, 32, 110, 47, 46,
  255, 252, 72, 231, 63, 60, 0, 4, 255, 248, 47, 12, 32, 6, 78, 237,
  78, 86, 32, 104, 78, 94, 0, 1, 88, 143, 79, 239, 0, 2, 0, 24,
  96, 0, 255, 255, 80, 143, 78, 144, 0, 6, 38, 110, 0, 20, 255, 244,
  76, 238, 0, 10, 0, 14, 65, 238, 76, 223, 72, 192, 255, 240, 45, 64,
  0, 18, 48, 46, 112, 1, 47, 40, 32, 84, 103, 0, 0, 32, 0, 28,
  32, 95, 24, 0, 38, 111, 72, 120, 0, 22, 65, 250, 48, 60, 40, 64,
  114, 0, 40, 110, 32, 12, 102, 0, 32, 107, 47, 7, 85, 143, 0, 40,
  255, 254, 255, 236, 34, 216, 32, 11, 0, 15, 89, 143, 47, 60, 255, 0,
  1, 24, 129, 225, 74, 0, 78, 176, 255, 232, 72, 199, 0, 3, 0, 34,
  0, 7, 0, 26, 103, 6, 103, 8, 78, 249, 0, 36, 32, 120, 8, 0,
  102, 4, 0, 42, 78, 208, 48, 40, 38, 95, 103, 4, 0, 48, 67, 238,
  63, 0, 32, 31, 0, 30, 255, 246, 32, 46, 66, 167, 32, 7, 255, 250,
  96, 2, 61, 64, 12, 64, 102, 6, 0, 38, 45, 72, 47, 1, 112, 255,
  96, 4, 24, 128, 74, 64, 0, 64, 0, 44, 47, 8, 0, 17, 255, 228,
  33, 64, 38, 64, 255, 242, 66, 110, 78, 185, 61, 124, 0, 56, 0, 13,
  96, 6, 66, 46, 32, 60, 103, 12, 45, 104, 102, 8, 74, 46, 74, 174,
  0, 46, 72, 64, 34, 95, 34, 0, 103, 10, 48, 7, 66, 103, 0, 50,
  32, 40, 0, 9, 72, 122, 2, 0, 47, 43, 0, 5, 34, 110, 102, 2,
  229, 128, 103, 14, 102, 10, 0, 80, 62, 0, 102, 12, 46, 0, 255, 238,
  32, 109, 32, 64, 255, 224, 83, 64, 96, 8, 4, 128, 0, 104, 11, 124,
  68, 0, 65, 232, 72, 65]

/-- `TABLE = [TABLE_DATA[i:i+2] for i in range(0, len(TABLE_DATA), 2)]`. -/
def TABLE : List (List Nat) := chunkPairs TABLE_DATA

/-- `_read_variable_length_integer(data, position)`
(`src/rsrcfork/compress.py:148`): returns the decoded signed integer and
the number of bytes consumed; a failing bounds `assert` crashes. -/
def read_variable_length_integer (data : List Nat) (i : Nat) :
    Except Err (Int × Nat) :=
  match data.get? i with
  | none => .error .assertionError
  | some b =>
    if b = 0xff then
      if i + 4 < data.length then .ok (beBytesToInt ((data.drop (i + 1)).take 4), 5)
      else .error .assertionError
    else if 0x80 ≤ b then
      match data.get? (i + 1) with
      | none => .error .assertionError
      | some b2 => .ok (beBytesToInt [(((b : Int) - 0xc0) % 256).toNat, b2], 2)
    else .ok ((b : Int), 1)

/-- The `for _ in range(1, count)` loop of extended code `0x00`
(`dcmp0.py:162-176`): each jump-table entry address is the previous one
plus a variable-length difference minus 6, with 16-bit wraparound.  After
the wraparound mask the address fits 2 bytes, so `to_bytes` cannot fail. -/
def jumpTableLoop (data entry_tail : List Nat) :
    Nat → Nat → Nat → List Nat → Except Err (Nat × List Nat)
  | 0, i, _, acc => .ok (i, acc)
  | n + 1, i, current, acc => do
    let (diff0, len) ← read_variable_length_integer data i
    let diff := diff0 - 6
    let current1 := (((current : Int) + diff) % 0x10000).toNat
    jumpTableLoop data entry_tail n (i + len) current1
      (acc ++ natToBytesBE 2 current1 ++ entry_tail)

/-- The `for _ in range(count)` loop of extended code `0x04`
(`dcmp0.py:232-243`): each 16-bit value is the previous one plus an 8-bit
signed delta read from a 1-byte slice (an empty slice past the end of the
data decodes to 0, as `int.from_bytes(b"")` does). -/
def deltas16Loop (data : List Nat) :
    Nat → Nat → Nat → List Nat → Nat × List Nat
  | 0, i, _, acc => (i, acc)
  | n + 1, i, current, acc =>
    let diff := beBytesToInt ((data.drop i).take 1)
    let current1 := (((current : Int) + diff) % 0x10000).toNat
    deltas16Loop data n (i + 1) current1 (acc ++ natToBytesBE 2 current1)

/-- The `for _ in range(count)` loop of extended code `0x06`
(`dcmp0.py:267-277`): 32-bit values with variable-length-encoded deltas
and 32-bit wraparound. -/
def deltas32Loop (data : List Nat) :
    Nat → Nat → Nat → List Nat → Except Err (Nat × List Nat)
  | 0, i, _, acc => .ok (i, acc)
  | n + 1, i, current, acc => do
    let (diff, len) ← read_variable_length_integer data i
    let current1 := (((current : Int) + diff) % 0x100000000).toNat
    deltas32Loop data n (i + len) current1 (acc ++ natToBytesBE 4 current1)

/-- The `byte == 0xfe` extended-code dispatch of `dcmp0.py:119-279`,
entered with `i` already past the tag and kind bytes.  Returns the new
input position and the extended output. -/
def extendedCode (data : List Nat) (i kind : Nat) (acc : List Nat) :
    Except Err (Nat × List Nat) :=
  if kind = 0x00 then do
    -- Segment loader jump table entries.
    let (segment_number, l1) ← read_variable_length_integer data i
    let i := i + l1
    let segBytes ← intToBytesBESigned 2 segment_number
    let entry_tail := [0x3f, 0x3c] ++ segBytes ++ [0xa9, 0xf0]
    let acc := acc ++ entry_tail
    let (count, l2) ← read_variable_length_integer data i
    let i := i + l2
    if count ≤ 0 then .error .decompressError
    else do
      let (current, l3) ← read_variable_length_integer data i
      let i := i + l3
      if 0 ≤ current ∧ current < 0x10000 then
        let acc := acc ++ natToBytesBE 2 current.toNat ++ entry_tail
        jumpTableLoop data entry_tail (count - 1).toNat i current.toNat acc
      else .error .overflowError
  else if kind = 0x02 ∨ kind = 0x03 then do
    -- Repeat a 1- or 2-byte value; OverflowError is caught and re-raised
    -- as DecompressError.
    let byte_count := if kind = 0x02 then 1 else 2
    let (to_repeat_int, l1) ← read_variable_length_integer data i
    let i := i + l1
    if 0 ≤ to_repeat_int ∧ to_repeat_int < (256 : Int) ^ byte_count then
      let to_repeat := natToBytesBE byte_count to_repeat_int.toNat
      let (count_m1, l2) ← read_variable_length_integer data i
      let i := i + l2
      let count := count_m1 + 1
      if count ≤ 0 then .error .decompressError
      else .ok (i, acc ++ (List.replicate count.toNat to_repeat).join)
    else .error .decompressError
  else if kind = 0x04 then do
    -- Difference-encoded 16-bit integers; OverflowError on the initial
    -- value is caught and re-raised as DecompressError.
    let (initial_int, l1) ← read_variable_length_integer data i
    let i := i + l1
    if -(0x8000 : Int) ≤ initial_int ∧ initial_int < 0x8000 then
      let acc := acc ++ natToBytesBE 2 (initial_int % 0x10000).toNat
      let (count, l2) ← read_variable_length_integer data i
      let i := i + l2
      if count < 0 then .error .decompressError
      else .ok (deltas16Loop data count.toNat i (initial_int % 0x10000).toNat acc)
    else .error .decompressError
  else if kind = 0x06 then do
    -- Difference-encoded 32-bit integers; a negative count fails the
    -- source's `assert count >= 0`.
    let (initial_int, l1) ← read_variable_length_integer data i
    let i := i + l1
    if -(0x80000000 : Int) ≤ initial_int ∧ initial_int < 0x80000000 then
      let acc := acc ++ natToBytesBE 4 (initial_int % 0x100000000).toNat
      let (count, l2) ← read_variable_length_integer data i
      let i := i + l2
      if count < 0 then .error .assertionError
      else deltas32Loop data count.toNat i (initial_int % 0x100000000).toNat acc
    else .error .decompressError
  else .error .decompressError

/-- The `while i < len(data)` tag loop of `dcmp0.decompress`
(`src/rsrcfork/compress/dcmp0.py:47-288`).  `fuel` only bounds the
recursion: every iteration advances `i` by at least one byte, so an
initial fuel of `data.length + 1` never runs out. -/
def loop (data : List Nat) :
    Nat → Nat → List (List Nat) → List Nat → Except Err (List Nat)
  | 0, _, _, _ => .error .assertionError
  | fuel + 1, i, prev_literals, acc =>
    if i < data.length then
      let byte := data.getD i 0
      if byte < 0x20 then
        -- Literal byte sequence.
        if byte = 0x00 ∨ byte = 0x10 then
          match data.get? (i + 1) with
          | none => .error .indexError
          | some count_div2 =>
            let start := i + 2
            let literal := (data.drop start).take (2 * count_div2)
            let prev1 := if 0x10 ≤ byte then prev_literals ++ [literal] else prev_literals
            loop data fuel (start + 2 * count_div2) prev1 (acc ++ literal)
        else
          let count_div2 := byte % 16
          let start := i + 1
          let literal := (data.drop start).take (2 * count_div2)
          let prev1 := if 0x10 ≤ byte then prev_literals ++ [literal] else prev_literals
          loop data fuel (start + 2 * count_div2) prev1 (acc ++ literal)
      else if byte = 0x20 ∨ byte = 0x21 then
        -- Backreference, 2-byte form.
        match data.get? (i + 1) with
        | none => .error .indexError
        | some nb =>
          match prev_literals.get? (0x28 + ((byte - 0x20) <<< 8 ||| nb)) with
          | none => .error .indexError
          | some literal => loop data fuel (i + 2) prev_literals (acc ++ literal)
      else if byte = 0x22 then
        -- Backreference, 3-byte form (the 2-byte slice may be short at the
        -- end of the data, exactly as the Python slice is).
        match prev_literals.get? (0x28 + beBytesToNat ((data.drop (i + 1)).take 2)) with
        | none => .error .indexError
        | some literal => loop data fuel (i + 3) prev_literals (acc ++ literal)
      else if byte < 0x4b then
        -- Backreference, 1-byte form (tags 0x23..0x4a).
        match prev_literals.get? (byte - 0x23) with
        | none => .error .indexError
        | some literal => loop data fuel (i + 1) prev_literals (acc ++ literal)
      else if byte < 0xfe then
        -- Fixed-table reference (tags 0x4b..0xfd).
        match TABLE.get? (byte - 0x4b) with
        | none => .error .indexError
        | some entry => loop data fuel (i + 1) prev_literals (acc ++ entry)
      else if byte = 0xfe then
        match data.get? (i + 1) with
        | none => .error .indexError
        | some kind => do
          let (i2, acc2) ← extendedCode data (i + 2) kind acc
          loop data fuel i2 prev_literals acc2
      else if byte = 0xff then
        -- End-of-data marker: must be the final byte.
        if i ≠ data.length - 1 then .error .decompressError
        else .ok acc
      else .error .decompressError
    else .ok acc

/-- `dcmp0.decompress(data, decompressed_length)`
(`src/rsrcfork/compress/dcmp0.py:39`): run the tag loop, then apply the
odd-length fixup of lines 290-295. -/
def decompress (data : List Nat) (decompressed_length : Nat) :
    Except Err (List Nat) :=
  match loop data (data.length + 1) 0 [] [] with
  | .error e => .error e
  | .ok d =>
    if decompressed_length % 2 ≠ 0 ∧ d.length = decompressed_length + 1 then
      .ok d.dropLast
    else .ok d

end Dcmp0Old

end Rsrcfork

namespace Rsrcfork

namespace Dcmp0New

/-!
Embedding of `src/src/rsrcfork/compress/dcmp0.py` (the streaming,
chunk-yielding dcmp0 decompressor).  Streams are modelled as the list of
bytes not yet consumed; the produced value is the list of yielded chunks.
-/

/-- `TABLE_DATA` of `src/src/rsrcfork/compress/dcmp0.py:8`; the byte
literal is identical to the one in `src/rsrcfork/compress/dcmp0.py`. -/
def TABLE_DATA : List Nat := Dcmp0Old.TABLE_DATA

/-- `TABLE = [TABLE_DATA[i:i+2] for i in range(0, len(TABLE_DATA), 2)]`. -/
def TABLE : List (List Nat) := chunkPairs TABLE_DATA

/-- The `for _ in range(1, count)` loop of extended code `0x00`
(`src/src/rsrcfork/compress/dcmp0.py:135-145`), yielding one chunk per
jump-table entry. -/
def jumpTableLoop (entry_tail : List Nat) :
    Nat → List Nat → Nat → List (List Nat) → Except Err (List Nat × List (List Nat))
  | 0, s, _, chunks => .ok (s, chunks)
  | n + 1, s, current, chunks => do
    let (diff0, s1) ← Common.read_variable_length_integer s
    let diff := diff0 - 6
    let current1 := (((current : Int) + diff) % 0x10000).toNat
    jumpTableLoop entry_tail n s1 current1
      (chunks ++ [natToBytesBE 2 current1 ++ entry_tail])

/-- The `for _ in range(count)` loop of extended code `0x04`
(`src/src/rsrcfork/compress/dcmp0.py:195-204`); unlike the buffered
version, each 1-byte delta is read with `read_exact` and a missing byte is
a `DecompressError`. -/
def deltas16Loop :
    Nat → List Nat → Nat → List (List Nat) → Except Err (List Nat × List (List Nat))
  | 0, s, _, chunks => .ok (s, chunks)
  | n + 1, s, current, chunks => do
    let (d, s1) ← Common.read_exact s 1
    let diff := beBytesToInt d
    let current1 := (((current : Int) + diff) % 0x10000).toNat
    deltas16Loop n s1 current1 (chunks ++ [natToBytesBE 2 current1])

/-- The `for _ in range(count)` loop of extended code `0x06`
(`src/src/rsrcfork/compress/dcmp0.py:226-234`). -/
def deltas32Loop :
    Nat → List Nat → Nat → List (List Nat) → Except Err (List Nat × List (List Nat))
  | 0, s, _, chunks => .ok (s, chunks)
  | n + 1, s, current, chunks => do
    let (diff, s1) ← Common.read_variable_length_integer s
    let current1 := (((current : Int) + diff) % 0x100000000).toNat
    deltas32Loop n s1 current1 (chunks ++ [natToBytesBE 4 current1])

/-- The `byte == 0xfe` extended-code dispatch of
`src/src/rsrcfork/compress/dcmp0.py:102-236`, entered after the kind byte
has been consumed. -/
def extendedCode (kind : Nat) (s : List Nat) (chunks : List (List Nat)) :
    Except Err (List Nat × List (List Nat)) :=
  if kind = 0x00 then do
    let (segment_number, s1) ← Common.read_variable_length_integer s
    -- `to_bytes(2, "big", signed=False)`: an out-of-range segment number
    -- raises an uncaught OverflowError.
    if 0 ≤ segment_number ∧ segment_number < 0x10000 then
      let entry_tail := [0x3f, 0x3c] ++ natToBytesBE 2 segment_number.toNat ++ [0xa9, 0xf0]
      let chunks := chunks ++ [entry_tail]
      let (count, s2) ← Common.read_variable_length_integer s1
      if count ≤ 0 then .error .decompressError
      else do
        let (current, s3) ← Common.read_variable_length_integer s2
        if 0 ≤ current ∧ current < 0x10000 then
          let chunks := chunks ++ [natToBytesBE 2 current.toNat ++ entry_tail]
          jumpTableLoop entry_tail (count - 1).toNat s3 current.toNat chunks
        else .error .overflowError
    else .error .overflowError
  else if kind = 0x02 ∨ kind = 0x03 then do
    let byte_count := if kind = 0x02 then 1 else 2
    let (to_repeat_int, s1) ← Common.read_variable_length_integer s
    if 0 ≤ to_repeat_int ∧ to_repeat_int < (256 : Int) ^ byte_count then
      let to_repeat := natToBytesBE byte_count to_repeat_int.toNat
      let (count_m1, s2) ← Common.read_variable_length_integer s1
      let count := count_m1 + 1
      if count ≤ 0 then .error .decompressError
      else .ok (s2, chunks ++ [(List.replicate count.toNat to_repeat).join])
    else .error .decompressError
  else if kind = 0x04 then do
    let (initial_int, s1) ← Common.read_variable_length_integer s
    if -(0x8000 : Int) ≤ initial_int ∧ initial_int < 0x8000 then
      let chunks := chunks ++ [natToBytesBE 2 (initial_int % 0x10000).toNat]
      let (count, s2) ← Common.read_variable_length_integer s1
      if count < 0 then .error .decompressError
      else deltas16Loop count.toNat s2 (initial_int % 0x10000).toNat chunks
    else .error .decompressError
  else if kind = 0x06 then do
    let (initial_int, s1) ← Common.read_variable_length_integer s
    if -(0x80000000 : Int) ≤ initial_int ∧ initial_int < 0x80000000 then
      let chunks := chunks ++ [natToBytesBE 4 (initial_int % 0x100000000).toNat]
      let (count, s2) ← Common.read_variable_length_integer s1
      if count < 0 then .error .assertionError
      else deltas32Loop count.toNat s2 (initial_int % 0x100000000).toNat chunks
    else .error .decompressError
  else .error .decompressError

/-- The tag loop of `decompress_stream_inner`
(`src/src/rsrcfork/compress/dcmp0.py:49-248`).  Every iteration consumes at
least the tag byte, so fuel `s.length + 1` never runs out. -/
def innerLoop :
    Nat → List Nat → List (List Nat) → List (List Nat) → Except Err (List (List Nat))
  | 0, _, _, _ => .error .assertionError
  | fuel + 1, s, prev_literals, chunks => do
    let (t, s1) ← Common.read_exact s 1
    let byte := t.headI
    if byte < 0x20 then
      if byte = 0x00 ∨ byte = 0x10 then do
        let (c, s2) ← Common.read_exact s1 1
        let count_div2 := c.headI
        let (literal, s3) ← Common.read_exact s2 (2 * count_div2)
        let prev1 := if 0x10 ≤ byte then prev_literals ++ [literal] else prev_literals
        innerLoop fuel s3 prev1 (chunks ++ [literal])
      else do
        let count_div2 := byte % 16
        let (literal, s2) ← Common.read_exact s1 (2 * count_div2)
        let prev1 := if 0x10 ≤ byte then prev_literals ++ [literal] else prev_literals
        innerLoop fuel s2 prev1 (chunks ++ [literal])
    else if byte = 0x20 ∨ byte = 0x21 then do
      let (nb, s2) ← Common.read_exact s1 1
      match prev_literals.get? (0x28 + ((byte - 0x20) <<< 8 ||| nb.headI)) with
      | none => .error .indexError
      | some literal => innerLoop fuel s2 prev_literals (chunks ++ [literal])
    else if byte = 0x22 then do
      let (bs, s2) ← Common.read_exact s1 2
      match prev_literals.get? (0x28 + beBytesToNat bs) with
      | none => .error .indexError
      | some literal => innerLoop fuel s2 prev_literals (chunks ++ [literal])
    else if byte < 0x4b then
      match prev_literals.get? (byte - 0x23) with
      | none => .error .indexError
      | some literal => innerLoop fuel s1 prev_literals (chunks ++ [literal])
    else if byte < 0xfe then
      match TABLE.get? (byte - 0x4b) with
      | none => .error .indexError
      | some entry => innerLoop fuel s1 prev_literals (chunks ++ [entry])
    else if byte = 0xfe then do
      let (k, s2) ← Common.read_exact s1 1
      let (s3, chunks2) ← extendedCode k.headI s2 chunks
      innerLoop fuel s3 prev_literals chunks2
    else if byte = 0xff then
      -- End-of-data marker: `stream.read(1)` must return nothing.
      if s1 = [] then .ok chunks else .error .decompressError
    else .error .decompressError

/-- `decompress_stream_inner(header_info, stream)`
(`src/src/rsrcfork/compress/dcmp0.py:41`): rejects non-type-8 headers, then
runs the tag loop and returns the yielded chunks in order. -/
def decompress_stream_inner (header_info : Common.CompressedHeaderInfo)
    (s : List Nat) : Except Err (List (List Nat)) :=
  match header_info with
  | .type9 _ _ _ _ _ => .error .decompressError
  | .type8 _ _ _ _ _ _ => innerLoop (s.length + 1) s [] []

/-- The per-chunk odd-length fixup of `decompress_stream`
(`src/src/rsrcfork/compress/dcmp0.py:254-266`): `running` is the number of
decompressed bytes yielded so far. -/
def fixChunks (declared : Nat) : Nat → List (List Nat) → List Nat
  | _, [] => []
  | running, c :: cs =>
    if declared % 2 ≠ 0 ∧ running + c.length = declared + 1 then
      c.dropLast ++ fixChunks declared (running + c.length - 1) cs
    else c ++ fixChunks declared (running + c.length) cs

/-- `decompress_stream(header_info, stream)`
(`src/src/rsrcfork/compress/dcmp0.py:251`): the concatenation of the inner
chunks after the per-chunk odd-length fixup. -/
def decompress_stream (header_info : Common.CompressedHeaderInfo)
    (s : List Nat) : Except Err (List Nat) :=
  (decompress_stream_inner header_info s).map
    (fixChunks header_info.decompressed_length 0)

end Dcmp0New

end Rsrcfork

namespace Rsrcfork

namespace Dcmp2Old

/-!
Embedding of `src/rsrcfork/compress/dcmp2.py` (the buffered, bytes-based
dcmp2 decompressor).
-/

/-- `DEFAULT_TABLE_DATA` from `src/rsrcfork/compress/dcmp2.py:18` (the same
byte literal also appears in `src/src/rsrcfork/compress/dcmp2.py:19`). -/
def DEFAULT_TABLE_DATA : List Nat := [
  0, 0, 0, 8, 78, 186, 32, 110, 78, 117, 0, 12, 0, 4, 112, 0,
  0, 16, 0, 2, 72, 110, 255, 252, 96, 0, 0, 1, 72, 231, 47, 46,
  78, 86, 0, 6, 78, 94, 47, 0, 97, 0, 255, 248, 47, 11, 255, 255,
  0, 20, 0, 10, 0, 24, 32, 95, 0, 14, 32, 80, 63, 60, 255, 244,
  76, 238, 48, 46, 103, 0, 76, 223, 38, 110, 0, 18, 0, 28, 66, 103,
  255, 240, 48, 60, 47, 12, 0, 3, 78, 208, 0, 32, 112, 1, 0, 22,
  45, 64, 72, 192, 32, 120, 114, 0, 88, 143, 102, 0, 79, 239, 66, 167,
  103, 6, 255, 250, 85, 143, 40, 110, 63, 0, 255, 254, 47, 60, 103, 4,
  89, 143, 32, 107, 0, 36, 32, 31, 65, 250, 129, 225, 102, 4, 103, 8,
  0, 26, 78, 185, 80, 143, 32, 46, 0, 7, 78, 176, 255, 242, 61, 64,
  0, 30, 32, 104, 102, 6, 255, 246, 78, 249, 8, 0, 12, 64, 61, 124,
  255, 236, 0, 5, 32, 60, 255, 232, 222, 252, 74, 46, 0, 48, 0, 40,
  47, 8, 32, 11, 96, 2, 66, 110, 45, 72, 32, 83, 32, 64, 24, 0,
  96, 4, 65, 238, 47, 40, 47, 1, 103, 10, 72, 64, 32, 7, 102, 8,
  1, 24, 47, 7, 48, 40, 63, 46, 48, 43, 34, 110, 47, 43, 0, 44,
  103, 12, 34, 95, 96, 6, 0, 255, 48, 7, 255, 238, 83, 64, 0, 64,
  255, 228, 74, 64, 102, 10, 0, 15, 78, 173, 112, 255, 34, 216, 72, 107,
  0, 34, 32, 75, 103, 14, 74, 174, 78, 144, 255, 224, 255, 192, 0, 42,
  39, 64, 103, 2, 81, 200, 2, 182, 72, 122, 34, 120, 176, 110, 255, 230,
  0, 9, 50, 46, 62, 0, 72, 65, 255, 234, 67, 238, 78, 113, 116, 0,
  47, 44, 32, 108, 0, 60, 0, 38, 0, 80, 24, 128, 48, 31, 34, 0,
  102, 12, 255, 218, 0, 56, 102, 2, 48, 44, 32, 12, 45, 110, 66, 64,
  255, 226, 169, 240, 255, 0, 55, 124, 229, 128, 255, 220, 72, 104, 89, 79,
  0, 52, 62, 31, 96, 8, 47, 6, 255, 222, 96, 10, 112, 2, 0, 50,
  255, 204, 0, 128, 34, 81, 16, 31, 49, 124, 160, 41, 255, 216, 82, 64,
  1, 0, 103, 16, 160, 35, 255, 206, 255, 212, 32, 6, 72, 120, 0, 46,
  80, 79, 67, 250, 103, 18, 118, 0, 65, 232, 74, 110, 32, 217, 0, 90,
  127, 255, 81, 202, 0, 92, 46, 0, 2, 64, 72, 199, 103, 20, 12, 128,
  46, 159, 255, 214, 128, 0, 16, 0, 72, 66, 74, 107, 255, 210, 0, 72,
  74, 71, 78, 209, 32, 111, 0, 65, 96, 12, 42, 120, 66, 46, 50, 0,
  101, 116, 103, 22, 0, 68, 72, 109, 32, 8, 72, 108, 11, 124, 38, 64,
  4, 0, 0, 104, 32, 109, 0, 13, 42, 64, 0, 11, 0, 62, 2, 32]

/-- `DEFAULT_TABLE = [DEFAULT_TABLE_DATA[i:i+2] for i in range(0, …, 2)]`. -/
def DEFAULT_TABLE : List (List Nat) := chunkPairs DEFAULT_TABLE_DATA

/-- `_split_bits(i)` (`dcmp2.py:60`): the 8 bits of a byte, MSB first. -/
def split_bits (i : Nat) : List Bool :=
  [i &&& 128 ≠ 0, i &&& 64 ≠ 0, i &&& 32 ≠ 0, i &&& 16 ≠ 0,
   i &&& 8 ≠ 0, i &&& 4 ≠ 0, i &&& 2 ≠ 0, i &&& 1 ≠ 0]

/-- `_decompress_system_untagged(data, decompressed_length, table)`
(`dcmp2.py:76`): every byte is a table reference, except that the last
byte is emitted verbatim when the declared decompressed length is odd.
An out-of-range table index is an uncaught `IndexError`. -/
def decompress_system_untagged (decompressed_length : Nat)
    (table : List (List Nat)) : List Nat → Except Err (List Nat)
  | [] => .ok []
  | b :: rest =>
    if rest = [] ∧ decompressed_length % 2 ≠ 0 then .ok [b]
    else
      match table.get? b with
      | none => .error .indexError
      | some entry => do
        let r ← decompress_system_untagged decompressed_length table rest
        .ok (entry ++ r)

/-- The `for is_ref in _split_bits(tag)` loop of
`_decompress_system_tagged` (`dcmp2.py:111-129`): process up to 8 units,
stopping the block early when the input is exhausted.  A reference bit at
end of input indexes past the data (`data[i]` with `i == len(data)`), an
uncaught `IndexError`; a literal at end of input is the (possibly short)
2-byte slice. -/
def taggedBlock (table : List (List Nat)) :
    List Bool → List Nat → Except Err (List Nat × List Nat)
  | [], rest => .ok ([], rest)
  | is_ref :: bits, rest =>
    if is_ref then
      match rest with
      | [] => .error .indexError
      | b :: rest1 =>
        match table.get? b with
        | none => .error .indexError
        | some entry =>
          if rest1 = [] then .ok (entry, [])
          else do
            let (c, r) ← taggedBlock table bits rest1
            .ok (entry ++ c, r)
    else
      let literal := rest.take 2
      let rest1 := rest.drop 2
      if rest1 = [] then .ok (literal, [])
      else do
        let (c, r) ← taggedBlock table bits rest1
        .ok (literal ++ c, r)

/-- The `while i < len(data)` block loop of `_decompress_system_tagged`
(`dcmp2.py:98-129`): blocks of one tag byte followed by up to 8 units; the
odd-length last-byte special case is checked only when the decoder is
about to read a tag byte.  Every iteration consumes at least the tag byte,
so fuel `data.length + 1` never runs out. -/
def taggedLoop (decompressed_length : Nat) (table : List (List Nat)) :
    Nat → List Nat → Except Err (List Nat)
  | 0, _ => .error .assertionError
  | _ + 1, [] => .ok []
  | fuel + 1, tag :: rest =>
    if rest = [] ∧ decompressed_length % 2 ≠ 0 then .ok [tag]
    else do
      let (chunk, rest1) ← taggedBlock table (split_bits tag) rest
      let r ← taggedLoop decompressed_length table fuel rest1
      .ok (chunk ++ r)

/-- `_decompress_system_tagged(data, decompressed_length, table)`
(`dcmp2.py:95`). -/
def decompress_system_tagged (decompressed_length : Nat)
    (table : List (List Nat)) (data : List Nat) : Except Err (List Nat) :=
  taggedLoop decompressed_length table (data.length + 1) data

/-- `decompress(data, decompressed_length, parameters)` (`dcmp2.py:134`):
unpack the `>HBB` parameter block, validate the flags (a value with bits
other than 0 and 1 raises `ValueError`, caught and re-raised as
`DecompressError`), build the lookup table (custom or default) and
dispatch on the tagged flag. -/
def decompress (data : List Nat) (decompressed_length : Nat)
    (parameters : List Nat) : Except Err (List Nat) :=
  if parameters.length ≠ 4 then .error .structError
  else
    let table_count_m1 := (parameters.drop 2).headI
    let flags_raw := (parameters.drop 3).headI
    if 3 < flags_raw then .error .decompressError
    else
      let table_count := table_count_m1 + 1
      let custom_table := flags_raw &&& 1 ≠ 0
      let tagged := flags_raw &&& 2 ≠ 0
      if custom_table then
        let data_start := table_count * 2
        let table := (List.range table_count).map
          (fun k => (data.drop (2 * k)).take 2)
        if tagged then
          decompress_system_tagged decompressed_length table (data.drop data_start)
        else
          decompress_system_untagged decompressed_length table (data.drop data_start)
      else
        if table_count_m1 ≠ 0 then .error .decompressError
        else if tagged then
          decompress_system_tagged decompressed_length DEFAULT_TABLE data
        else
          decompress_system_untagged decompressed_length DEFAULT_TABLE data

/-- Tagged-mode block decoding as described by the literal words of claim
C9: like `taggedBlock`, but additionally, *whenever* the decoder is
positioned at the last remaining input byte and the declared length is
odd — also in the middle of a block — that byte is emitted verbatim as a
one-byte literal.  This definition follows the claim, not the source, and
exists only to be compared against the source's behaviour. -/
def taggedClaimBlock (decompressed_length : Nat) (table : List (List Nat)) :
    List Bool → List Nat → Except Err (List Nat × List Nat)
  | [], rest => .ok ([], rest)
  | is_ref :: bits, rest =>
    if rest.length = 1 ∧ decompressed_length % 2 ≠ 0 then .ok ([rest.headI], [])
    else if is_ref then
      match rest with
      | [] => .error .indexError
      | b :: rest1 =>
        match table.get? b with
        | none => .error .indexError
        | some entry =>
          if rest1 = [] then .ok (entry, [])
          else do
            let (c, r) ← taggedClaimBlock decompressed_length table bits rest1
            .ok (entry ++ c, r)
    else
      let literal := rest.take 2
      let rest1 := rest.drop 2
      if rest1 = [] then .ok (literal, [])
      else do
        let (c, r) ← taggedClaimBlock decompressed_length table bits rest1
        .ok (literal ++ c, r)

/-- Tagged-mode decoding as described by the literal words of claim C9
(see `taggedClaimBlock`). -/
def taggedClaimLoop (decompressed_length : Nat) (table : List (List Nat)) :
    Nat → List Nat → Except Err (List Nat)
  | 0, _ => .error .assertionError
  | _ + 1, [] => .ok []
  | fuel + 1, tag :: rest =>
    if rest = [] ∧ decompressed_length % 2 ≠ 0 then .ok [tag]
    else do
      let (chunk, rest1) ← taggedClaimBlock decompressed_length table (split_bits tag) rest
      let r ← taggedClaimLoop decompressed_length table fuel rest1
      .ok (chunk ++ r)

/-- Entry point for the claim-literal tagged decoder. -/
def decompress_tagged_per_claim (decompressed_length : Nat)
    (table : List (List Nat)) (data : List Nat) : Except Err (List Nat) :=
  taggedClaimLoop decompressed_length table (data.length + 1) data

end Dcmp2Old

namespace CompressOld

/-!
Embedding of `src/rsrcfork/compress/__init__.py` (the middle-layout
top-level `decompress` entry point and its header parser).
-/

/-- `CompressedHeaderInfo` of `compress/__init__.py:42` with its
`CompressedApplicationHeaderInfo` / `CompressedSystemHeaderInfo`
subclasses. -/
inductive HeaderInfo where
  | application (header_length compression_type decompressed_length : Nat)
      (dcmp_id : Int)
      (working_buffer_fractional_size expansion_buffer_size : Nat)
  | system (header_length compression_type decompressed_length : Nat)
      (dcmp_id : Int) (parameters : List Nat)
  deriving DecidableEq, Repr

/-- The `header_length` attribute. -/
def HeaderInfo.header_length : HeaderInfo → Nat
  | .application hl _ _ _ _ _ => hl
  | .system hl _ _ _ _ => hl

/-- The `decompressed_length` attribute. -/
def HeaderInfo.decompressed_length : HeaderInfo → Nat
  | .application _ _ dl _ _ _ => dl
  | .system _ _ dl _ _ => dl

/-- `CompressedHeaderInfo.parse(data)` (`compress/__init__.py:44`):
`unpack_from` needs at least the 18 header bytes; the signature must be
`a8 9f 65 72`; the header length must be exactly `0x12`; the compression
type selects the application (type 8, reserved field must be 0) or system
(type 9) variant. -/
def parse (data : List Nat) : Except Err HeaderInfo :=
  if data.length < 18 then .error .decompressError
  else
    let signature := data.take 4
    let header_length := beBytesToNat ((data.drop 4).take 2)
    let compression_type := beBytesToNat ((data.drop 6).take 2)
    let decompressed_length := beBytesToNat ((data.drop 8).take 4)
    let remainder := (data.drop 12).take 6
    if signature ≠ [0xa8, 0x9f, 0x65, 0x72] then .error .decompressError
    else if header_length ≠ 0x12 then .error .decompressError
    else if compression_type = 0x0801 then
      let reserved := beBytesToNat ((remainder.drop 4).take 2)
      if reserved ≠ 0 then .error .decompressError
      else .ok (.application header_length compression_type decompressed_length
        (beBytesToInt ((remainder.drop 2).take 2))
        remainder.headI ((remainder.drop 1).headI))
    else if compression_type = 0x0901 then
      .ok (.system header_length compression_type decompressed_length
        (beBytesToInt (remainder.take 2)) (remainder.drop 2))
    else .error .decompressError

/-- `_decompress_application(data, header_info)`
(`compress/__init__.py:98`): dcmp ID 0 dispatches to `dcmp0.decompress`;
ID 1 selects `dcmp1.decompress`, which does not exist in this snapshot's
`dcmp1` module (it only defines `decompress_stream`), so the attribute
lookup raises an uncaught `AttributeError`; any other ID is a
`DecompressError`. -/
def decompress_application (data : List Nat) (decompressed_length : Nat)
    (dcmp_id : Int) : Except Err (List Nat) :=
  if dcmp_id = 0 then Dcmp0Old.decompress data decompressed_length
  else if dcmp_id = 1 then .error .attributeError
  else .error .decompressError

/-- `_decompress_system(data, header_info)` (`compress/__init__.py:109`):
dcmp ID 2 dispatches to `dcmp2.decompress`; anything else is a
`DecompressError`. -/
def decompress_system (data : List Nat) (decompressed_length : Nat)
    (dcmp_id : Int) (parameters : List Nat) : Except Err (List Nat) :=
  if dcmp_id = 2 then Dcmp2Old.decompress data decompressed_length parameters
  else .error .decompressError

/-- The codec dispatch of `decompress` (`compress/__init__.py:126-133`),
applied to `data[header_info.header_length:]`. -/
def dispatch (header_info : HeaderInfo) (payload : List Nat) :
    Except Err (List Nat) :=
  match header_info with
  | .application _ _ dl dcmp_id _ _ => decompress_application payload dl dcmp_id
  | .system _ _ dl dcmp_id parameters => decompress_system payload dl dcmp_id parameters

/-- `decompress(data)` (`compress/__init__.py:118`): parse the header,
run the matching codec on the data after the header, and fail with a
`DecompressError` unless the result's length equals the header's declared
decompressed length. -/
def decompress (data : List Nat) : Except Err (List Nat) := do
  let header_info ← parse data
  let decompressed ← dispatch header_info (data.drop header_info.header_length)
  if decompressed.length ≠ header_info.decompressed_length then
    .error .decompressError
  else .ok decompressed

end CompressOld

end Rsrcfork

namespace Rsrcfork

namespace IOUtils

/-!
Embedding of `SubStream` from `src/rsrcfork/_io_utils.py` (the bounded
read-only view over a range of another stream, as returned by
`Resource.open_raw`).
-/

/-- The `whence` argument of `seek`: `io.SEEK_SET` / `SEEK_CUR` /
`SEEK_END`. -/
inductive Whence where
  | seekSet
  | seekCur
  | seekEnd
  deriving DecidableEq, Repr

/-- The state of a `SubStream` (`_io_utils.py:22`): the outer stream's
content, the window start and length, and the current seek position. -/
structure SubStream where
  outer : List Nat
  start_offset : Nat
  length : Nat
  seek_position : Nat
  deriving DecidableEq, Repr

/-- `SubStream.__init__` (`_io_utils.py:30-50`): seeks the outer stream to
its end to learn its length and raises `ValueError` when the requested
window extends past it. -/
def SubStream.init (stream : List Nat) (start_offset length : Nat) :
    Except Err SubStream :=
  if start_offset + length > stream.length then .error .valueError
  else .ok { outer := stream, start_offset := start_offset, length := length,
             seek_position := 0 }

/-- The clamping applied at the end of `SubStream.seek`
(`_io_utils.py:68`): `max(0, min(self._length, pos))`. -/
def clampPos (length : Nat) (pos : Int) : Nat :=
  (max 0 (min (length : Int) pos)).toNat

/-- `SubStream.seek(offset, whence)` (`_io_utils.py:55-70`). -/
def SubStream.seek (s : SubStream) (offset : Int) (whence : Whence) :
    Except Err SubStream :=
  match whence with
  | .seekSet =>
    if offset < 0 then .error .valueError
    else .ok { s with seek_position := clampPos s.length offset }
  | .seekCur =>
    .ok { s with seek_position := clampPos s.length ((s.seek_position : Int) + offset) }
  | .seekEnd =>
    .ok { s with seek_position := clampPos s.length ((s.length : Int) - offset) }

/-- The effective read size computed at the top of `SubStream.read`
(`_io_utils.py:79-80`): a `None`, negative or too-large size is replaced
by the remaining window length. -/
def SubStream.effectiveReadSize (length seek_position : Nat) (size : Option Int) : Int :=
  let remaining : Int := (length : Int) - (seek_position : Int)
  match size with
  | none => remaining
  | some sz => if sz < 0 ∨ remaining < sz then remaining else sz

/-- `SubStream.read(size)` (`_io_utils.py:78-85`): the outer stream is
seeked to `start_offset + seek_position` and read from there. -/
def SubStream.read (s : SubStream) (size : Option Int) : List Nat × SubStream :=
  let size1 := SubStream.effectiveReadSize s.length s.seek_position size
  let res := (s.outer.drop (s.start_offset + s.seek_position)).take size1.toNat
  (res, { s with seek_position := s.seek_position + res.length })

end IOUtils

namespace RF1

/-!
Embedding of the old single-file module `src/rsrcfork.py` (version 1.1.0):
its seekable and streaming initialisation paths and the resource
resolution of `_LazyResourceMap.__getitem__`.
-/

/-- `ResourceFile._read(count)` (`rsrcfork.py:277`): `stream.read(count)`
returns up to `count` bytes; the position advances by the number of bytes
actually returned. -/
def readAt (data : List Nat) (pos count : Nat) : List Nat × Nat :=
  let ret := (data.drop pos).take count
  (ret, pos + ret.length)

/-- `_stream_unpack(st)` (`rsrcfork.py:285`): `st.unpack` raises
`struct.error` unless exactly `st.size` bytes were read. -/
def stream_unpack (data : List Nat) (pos n : Nat) : Except Err (List Nat × Nat) :=
  let (bs, pos1) := readAt data pos n
  if bs.length ≠ n then .error .structError else .ok (bs, pos1)

/-- Python dict subscription on an ordered association list: `KeyError`
when the key is absent. -/
def dictGet {α β : Type} [DecidableEq α] (m : List (α × β)) (k : α) :
    Except Err β :=
  match m.find? (fun e => decide (e.1 = k)) with
  | none => .error .keyError
  | some e => .ok e.2

/-- The offsets and lengths of the resource file header (the two opaque
reserved byte blocks are not retained here; nothing below reads them). -/
structure Header where
  data_offset : Nat
  map_offset : Nat
  data_length : Nat
  map_length : Nat
  deriving DecidableEq, Repr

/-- `_read_header` (`rsrcfork.py:290`): unpack the 256-byte
`>IIII112s128s` header at position 0; the trailing
`assert self._tell() == self.data_offset` crashes when the declared data
offset is not the position after the header. -/
def read_header (data : List Nat) : Except Err (Header × Nat) := do
  let (bs, pos) ← stream_unpack data 0 256
  let hdr : Header :=
    { data_offset := beBytesToNat (bs.take 4)
      map_offset := beBytesToNat ((bs.drop 4).take 4)
      data_length := beBytesToNat ((bs.drop 8).take 4)
      map_length := beBytesToNat ((bs.drop 12).take 4) }
  if pos ≠ hdr.data_offset then .error .assertionError
  else .ok (hdr, pos)

/-- `_read_all_resource_data` (`rsrcfork.py:312`): in streaming mode, read
consecutive length-prefixed data blocks until the map offset is reached,
keying each block by the stream position of its length prefix (`_tell()`,
an absolute position).  The two `assert` statements of the source are
modelled as checks.  Fuel: every iteration advances the position by at
least the 4 length bytes. -/
def read_all_resource_data (data : List Nat) (map_offset : Nat) :
    Nat → Nat → List (Nat × List Nat) → Except Err (List (Nat × List Nat) × Nat)
  | 0, _, _ => .error .assertionError
  | fuel + 1, pos, acc =>
    if pos < map_offset then do
      let (lenBs, pos1) ← stream_unpack data pos 4
      let length := beBytesToNat lenBs
      if ¬ (pos1 + length ≤ map_offset) then .error .assertionError
      else
        let (blk, pos2) := readAt data pos1 length
        read_all_resource_data data map_offset fuel pos2 (acc ++ [(pos, blk)])
    else if pos ≠ map_offset then .error .assertionError
    else .ok (acc, pos)

/-- `_read_map_header` (`rsrcfork.py:327`): the 28-byte `>16x4x2xHHH` map
header. -/
def read_map_header (data : List Nat) (pos : Nat) :
    Except Err ((Nat × Nat × Nat) × Nat) := do
  let (bs, pos1) ← stream_unpack data pos 28
  .ok ((beBytesToNat ((bs.drop 22).take 2),
        beBytesToNat ((bs.drop 24).take 2),
        beBytesToNat ((bs.drop 26).take 2)), pos1)

/-- The loop of `_read_all_resource_types` (`rsrcfork.py:349`): `n`
consecutive 8-byte type entries; the count is `stored + 1` (this old
version has no modulo). -/
def read_type_entries (data : List Nat) (pos n : Nat) :
    Except Err (List (List Nat × Nat × Nat) × Nat) :=
  match n with
  | 0 => .ok ([], pos)
  | n + 1 => do
    let (bs, pos1) ← stream_unpack data pos 8
    let entry := (bs.take 4, beBytesToNat ((bs.drop 4).take 2) + 1,
      beBytesToNat ((bs.drop 6).take 2))
    let (rest, pos2) ← read_type_entries data pos1 n
    .ok (entry :: rest, pos2)

/-- `_read_all_resource_types` (`rsrcfork.py:342`). -/
def read_all_resource_types (data : List Nat) (pos : Nat) :
    Except Err (List (List Nat × Nat × Nat) × Nat) := do
  let (bs, pos1) ← stream_unpack data pos 2
  read_type_entries data pos1 (beBytesToNat bs + 1)

/-- The inner loop of `_read_all_references` (`rsrcfork.py:365`): `n`
consecutive 12-byte `>hHI4x` reference entries, the packed field split as
`v >> 24` and `v & ((1 << 24) - 1)`. -/
def read_reference_entries (data : List Nat) (pos n : Nat) :
    Except Err (List (Int × (Nat × Nat × Nat)) × Nat) :=
  match n with
  | 0 => .ok ([], pos)
  | n + 1 => do
    let (bs, pos1) ← stream_unpack data pos 12
    let packed := beBytesToNat ((bs.drop 4).take 4)
    let entry := (beBytesToInt (bs.take 2),
      (beBytesToNat ((bs.drop 2).take 2), packed >>> 24, packed &&& ((1 <<< 24) - 1)))
    let (rest, pos2) ← read_reference_entries data pos1 n
    .ok (entry :: rest, pos2)

/-- `_read_all_references` (`rsrcfork.py:357`). -/
def read_all_references (data : List Nat) (pos : Nat)
    (counts : List (List Nat × Nat)) :
    Except Err (List (List Nat × List (Int × (Nat × Nat × Nat))) × Nat) :=
  match counts with
  | [] => .ok ([], pos)
  | (resource_type, count) :: rest => do
    let (entries, pos1) ← read_reference_entries data pos count
    let resmap := entries.foldl (fun m e => Api.dictUpdate e.1 e.2 m) []
    let (restRefs, pos2) ← read_all_references data pos1 rest
    .ok ((resource_type, resmap) :: restRefs, pos2)

/-- `_read_all_resource_names` (`rsrcfork.py:377`): in streaming mode, read
consecutive length-prefixed names until the end of the map, keying each by
the stream position of its length prefix (an absolute position). -/
def read_all_resource_names (data : List Nat) (map_end : Nat) :
    Nat → Nat → List (Nat × List Nat) → Except Err (List (Nat × List Nat) × Nat)
  | 0, _, _ => .error .assertionError
  | fuel + 1, pos, acc =>
    if pos < map_end then do
      let (lenBs, pos1) ← stream_unpack data pos 1
      let (nm, pos2) := readAt data pos1 lenBs.headI
      read_all_resource_names data map_end fuel pos2 (acc ++ [(pos, nm)])
    else .ok (acc, pos)

/-- The state built by `_init_streaming` (`rsrcfork.py:396`). -/
structure StreamingFile where
  hdr : Header
  file_attributes : Nat
  map_type_list_offset : Nat
  map_name_list_offset : Nat
  reference_counts : List (List Nat × Nat)
  references : List (List Nat × List (Int × (Nat × Nat × Nat)))
  resource_data : List (Nat × List Nat)
  resource_names : List (Nat × List Nat)
  deriving DecidableEq, Repr

/-- `_init_streaming` (`rsrcfork.py:396`): read the whole file
sequentially — header, all data blocks, map header, type list, reference
lists, all names — with the source's `assert` statements modelled as
checks. -/
def init_streaming (data : List Nat) : Except Err StreamingFile := do
  let (hdr, pos) ← read_header data
  let (resource_data, pos1) ←
    read_all_resource_data data hdr.map_offset (data.length + 1) pos []
  let ((file_attributes, tlo, nlo), pos2) ← read_map_header data pos1
  -- assert self._tell() == self.map_offset + self.map_type_list_offset
  if pos2 ≠ hdr.map_offset + tlo then .error .assertionError
  else do
    let (rawTypes, pos3) ← read_all_resource_types data pos2
    let reference_counts := rawTypes.foldl (fun m e => Api.dictUpdate e.1 e.2.1 m) []
    let (references, pos4) ← read_all_references data pos3 reference_counts
    -- assert self._tell() == self.map_offset + self.map_name_list_offset
    if pos4 ≠ hdr.map_offset + nlo then .error .assertionError
    else do
      let (resource_names, _) ←
        read_all_resource_names data (hdr.map_offset + hdr.map_length)
          (data.length + 1) pos4 []
      .ok { hdr := hdr, file_attributes := file_attributes
            map_type_list_offset := tlo, map_name_list_offset := nlo
            reference_counts := reference_counts, references := references
            resource_data := resource_data, resource_names := resource_names }

/-- The state built by `_init_seeking` (`rsrcfork.py:387`). -/
structure SeekingFile where
  hdr : Header
  file_attributes : Nat
  map_type_list_offset : Nat
  map_name_list_offset : Nat
  reference_counts : List (List Nat × Nat)
  references : List (List Nat × List (Int × (Nat × Nat × Nat)))
  deriving DecidableEq, Repr

/-- `_init_seeking` (`rsrcfork.py:387`): read the header, seek to the map
offset, read map header, type list and reference lists; names and data
stay on disk. -/
def init_seeking (data : List Nat) : Except Err SeekingFile := do
  let (hdr, _) ← read_header data
  let ((file_attributes, tlo, nlo), pos1) ← read_map_header data hdr.map_offset
  let (rawTypes, pos2) ← read_all_resource_types data pos1
  let reference_counts := rawTypes.foldl (fun m e => Api.dictUpdate e.1 e.2.1 m) []
  let (references, _) ← read_all_references data pos2 reference_counts
  .ok { hdr := hdr, file_attributes := file_attributes
        map_type_list_offset := tlo, map_name_list_offset := nlo
        reference_counts := reference_counts, references := references }

/-- A materialised `Resource` (`rsrcfork.py:120`): name, attributes and
data of one resource. -/
structure Resource where
  name : Option (List Nat)
  attributes : Nat
  data : List Nat
  deriving DecidableEq, Repr

/-- `_LazyResourceMap.__getitem__` (`rsrcfork.py:175-196`) in streaming
mode: the name (unless the `0xffff` sentinel) and the data are looked up
in the eagerly read dictionaries, using the *relative* name and data
offsets stored in the reference entry as keys. -/
def getItemStreaming (f : StreamingFile) (restype : List Nat) (key : Int) :
    Except Err Resource := do
  let submap ← dictGet f.references restype
  let (name_offset, attributes, data_offset) ← dictGet submap key
  let name ←
    if name_offset = 0xffff then pure none
    else do
      let n ← dictGet f.resource_names name_offset
      pure (some n)
  let data ← dictGet f.resource_data data_offset
  .ok { name := name, attributes := attributes, data := data }

/-- `_LazyResourceMap.__getitem__` (`rsrcfork.py:175-196`) in seeking mode:
the name is read at `map_offset + map_name_list_offset + name_offset`, the
data at `data_offset + relative data offset` (a 4-byte length prefix
followed by that many bytes; the reads themselves are plain `stream.read`
calls that may return short without error). -/
def getItemSeeking (data : List Nat) (f : SeekingFile) (restype : List Nat)
    (key : Int) : Except Err Resource := do
  let submap ← dictGet f.references restype
  let (name_offset, attributes, data_offset) ← dictGet submap key
  let name ←
    if name_offset = 0xffff then pure none
    else do
      let (lb, p1) ← stream_unpack data
        (f.hdr.map_offset + f.map_name_list_offset + name_offset) 1
      pure (some (readAt data p1 lb.headI).1)
  let (db, p2) ← stream_unpack data (f.hdr.data_offset + data_offset) 4
  .ok { name := name, attributes := attributes
        data := (readAt data p2 (beBytesToNat db)).1 }

end RF1

/-! Concrete resource containers used by the theorems below. -/

/-- A container with a valid 256-byte header, an empty data section, and a
stored type-count-minus-one field of `0xffff` (the all-ones edge case). -/
def emptyTypesContainer : List Nat :=
  natToBytesBE 4 256 ++ natToBytesBE 4 256 ++ natToBytesBE 4 0 ++
    natToBytesBE 4 30 ++ List.replicate 112 0 ++ List.replicate 128 0 ++
  List.replicate 22 0 ++ natToBytesBE 2 0 ++ natToBytesBE 2 28 ++
    natToBytesBE 2 30 ++
  [0xff, 0xff]

/-- The same container with the declared data-section offset changed to
160. -/
def badOffsetContainer : List Nat :=
  natToBytesBE 4 160 ++ emptyTypesContainer.drop 4

/-- A container with one type `TEST` holding one unnamed resource with
ID 1 and the single data byte `0xab`. -/
def oneResourceContainer : List Nat :=
  natToBytesBE 4 256 ++ natToBytesBE 4 261 ++ natToBytesBE 4 5 ++
    natToBytesBE 4 50 ++ List.replicate 112 0 ++ List.replicate 128 0 ++
  natToBytesBE 4 1 ++ [0xab] ++
  List.replicate 22 0 ++ natToBytesBE 2 0 ++ natToBytesBE 2 28 ++
    natToBytesBE 2 50 ++
  natToBytesBE 2 0 ++
  [0x54, 0x45, 0x53, 0x54] ++ natToBytesBE 2 0 ++ natToBytesBE 2 10 ++
  natToBytesBE 2 1 ++ [0xff, 0xff] ++ natToBytesBE 4 0 ++ natToBytesBE 4 0

end Rsrcfork

namespace Rsrcfork

/-- Claim C4: parsing splits a reference entry's packed 32-bit
attributes/offset field into the top 8 bits (the attribute flags) and the
low 24 bits (the data offset); in particular `0x1000002A` decodes to
attributes `0x10` and data offset `0x2A`. -/
theorem claim_C4 (v : Nat) (hv : v < 2 ^ 32) :
    (Api.splitAttributesAndDataOffset v).1 = v / 2 ^ 24 ∧
    (Api.splitAttributesAndDataOffset v).1 < 2 ^ 8 ∧
    (Api.splitAttributesAndDataOffset v).2 = v % 2 ^ 24 ∧
    v = (Api.splitAttributesAndDataOffset v).1 * 2 ^ 24 +
      (Api.splitAttributesAndDataOffset v).2 ∧
    Api.splitAttributesAndDataOffset 0x1000002A = (0x10, 0x2A) := by
  have h1 : v >>> 24 = v / 2 ^ 24 := Nat.shiftRight_eq_div_pow v 24
  have h2 : v &&& ((1 <<< 24) - 1) = v % 2 ^ 24 := by
    have := Nat.and_pow_two_sub_one_eq_mod v 24
    norm_num at this ⊢
    exact this
  refine ⟨h1, ?_, h2, ?_, by decide⟩
  · show v >>> 24 < 2 ^ 8
    rw [h1]
    omega
  · show v = v >>> 24 * 2 ^ 24 + (v &&& ((1 <<< 24) - 1))
    rw [h1, h2]
    omega

/-- Claim C4 witness: the theorem applied at the concrete packed value
`0x1000002A`. -/
theorem claim_C4_witness :
    (Api.splitAttributesAndDataOffset 0x1000002A).1 = 0x1000002A / 2 ^ 24 ∧
    (Api.splitAttributesAndDataOffset 0x1000002A).1 < 2 ^ 8 ∧
    (Api.splitAttributesAndDataOffset 0x1000002A).2 = 0x1000002A % 2 ^ 24 ∧
    0x1000002A = (Api.splitAttributesAndDataOffset 0x1000002A).1 * 2 ^ 24 +
      (Api.splitAttributesAndDataOffset 0x1000002A).2 ∧
    Api.splitAttributesAndDataOffset 0x1000002A = (0x10, 0x2A) :=
  claim_C4 0x1000002A (by norm_num)

end Rsrcfork

namespace Rsrcfork

theorem Common.read_exact_cons_one (a : Nat) (l : List Nat) :
    Common.read_exact (a :: l) 1 = .ok ([a], l) := by
  simp [Common.read_exact]

theorem Common.read_exact_cons_four (a b c d : Nat) (l : List Nat) :
    Common.read_exact (a :: b :: c :: d :: l) 4 = .ok ([a, b, c, d], l) := by
  simp [Common.read_exact]

theorem beBytesToInt_one (a : Nat) :
    beBytesToInt [a] = if a < 128 then (a : Int) else (a : Int) - 256 := by
  simp [beBytesToInt, beBytesToNat]

theorem beBytesToInt_two (a b : Nat) :
    beBytesToInt [a, b] =
      if a * 256 + b < 32768 then ((a * 256 + b : Nat) : Int)
      else ((a * 256 + b : Nat) : Int) - 65536 := by
  simp only [beBytesToInt, beBytesToNat, List.foldl, List.length_cons,
    List.length_nil, Nat.zero_mul, Nat.zero_add]
  norm_num

theorem beBytesToInt_four (a b c d : Nat) :
    beBytesToInt [a, b, c, d] =
      if ((a * 256 + b) * 256 + c) * 256 + d < 2147483648 then
        ((((a * 256 + b) * 256 + c) * 256 + d : Nat) : Int)
      else ((((a * 256 + b) * 256 + c) * 256 + d : Nat) : Int) - 4294967296 := by
  simp only [beBytesToInt, beBytesToNat, List.foldl, List.length_cons,
    List.length_nil, Nat.zero_mul, Nat.zero_add]
  norm_num

/-- Claim C8: the variable-length integer decoder shared by dcmp0 and
dcmp1 returns: for a first byte `b` in `0x00..0x7f`, the signed value `b`
itself; for `b` in `0x80..0xfe`, the signed 16-bit big-endian value formed
from the byte `(b - 0xc0) mod 256` (written `(b + 0x40) % 256` below,
which is the same residue) followed by the next input byte; and for
`b = 0xff`, the signed 32-bit big-endian value of the following 4 bytes. -/
theorem claim_C8 (b : Nat) (rest : List Nat) :
    (b ≤ 0x7f →
      Common.read_variable_length_integer (b :: rest) = .ok ((b : Int), rest)) ∧
    (0x80 ≤ b → b ≤ 0xfe → ∀ n2 rest2, rest = n2 :: rest2 →
      Common.read_variable_length_integer (b :: rest) =
        .ok ((if ((b + 0x40) % 256) * 256 + n2 < 0x8000
          then ((((b + 0x40) % 256) * 256 + n2 : Nat) : Int)
          else ((((b + 0x40) % 256) * 256 + n2 : Nat) : Int) - 0x10000), rest2)) ∧
    (b = 0xff → ∀ b1 b2 b3 b4 rest4, rest = b1 :: b2 :: b3 :: b4 :: rest4 →
      Common.read_variable_length_integer (b :: rest) =
        .ok ((if ((b1 * 256 + b2) * 256 + b3) * 256 + b4 < 0x80000000
          then ((((b1 * 256 + b2) * 256 + b3) * 256 + b4 : Nat) : Int)
          else ((((b1 * 256 + b2) * 256 + b3) * 256 + b4 : Nat) : Int) - 0x100000000),
          rest4)) := by
  refine ⟨?_, ?_, ?_⟩
  · intro hb
    rw [Common.read_variable_length_integer, Common.read_exact_cons_one]
    simp only [bind, Except.bind, List.headI]
    rw [if_neg (by omega : ¬ b = 0xff), if_neg (by omega : ¬ 0x80 ≤ b)]
    simp only [pure, Except.pure, beBytesToInt_one]
    rw [if_pos (by omega : b < 128)]
  · intro hb1 hb2 n2 rest2 hrest
    subst hrest
    rw [Common.read_variable_length_integer, Common.read_exact_cons_one]
    simp only [bind, Except.bind, List.headI]
    rw [if_neg (by omega : ¬ b = 0xff), if_pos hb1, Common.read_exact_cons_one]
    simp only [bind, Except.bind, List.headI, pure, Except.pure]
    rw [beBytesToInt_two]
    have hhi : ((((b : Int) - 0xc0) % 256)).toNat = (b + 0x40) % 256 := by omega
    rw [hhi]
  · intro hb b1 b2 b3 b4 rest4 hrest
    subst hrest hb
    rw [Common.read_variable_length_integer, Common.read_exact_cons_one]
    simp only [bind, Except.bind, List.headI]
    simp only [if_pos, ite_true, if_true, reduceIte, Common.read_exact_cons_four]
    simp only [bind, Except.bind, pure, Except.pure]
    rw [beBytesToInt_four]

/-- Claim C8 witness: the theorem applied to the three concrete inputs
`[0x50, 1, 2]`, `[0x90, 0x05, 7]` and `[0xff, 1, 2, 3, 4]`. -/
theorem claim_C8_witness :
    Common.read_variable_length_integer (0x50 :: [1, 2]) = .ok ((0x50 : Int), [1, 2]) ∧
    Common.read_variable_length_integer (0x90 :: [0x05, 7]) =
      .ok ((if ((0x90 + 0x40) % 256) * 256 + 0x05 < 0x8000
        then ((((0x90 + 0x40) % 256) * 256 + 0x05 : Nat) : Int)
        else ((((0x90 + 0x40) % 256) * 256 + 0x05 : Nat) : Int) - 0x10000), [7]) ∧
    Common.read_variable_length_integer (0xff :: [1, 2, 3, 4]) =
      .ok ((if ((1 * 256 + 2) * 256 + 3) * 256 + 4 < 0x80000000
        then ((((1 * 256 + 2) * 256 + 3) * 256 + 4 : Nat) : Int)
        else ((((1 * 256 + 2) * 256 + 3) * 256 + 4 : Nat) : Int) - 0x100000000), []) :=
  ⟨(claim_C8 0x50 [1, 2]).1 (by decide),
   (claim_C8 0x90 [0x05, 7]).2.1 (by decide) (by decide) 0x05 [7] rfl,
   (claim_C8 0xff [1, 2, 3, 4]).2.2 rfl 1 2 3 4 [] rfl⟩

end Rsrcfork

namespace Rsrcfork

/-- Claim C7: parsing a compressed-resource header succeeds exactly when
the input provides the full 18-byte header, the 4-byte signature is
`0xa8 0x9f 0x65 0x72`, the declared header length is `0x12` (with `0` also
tolerated), and the compression-type code is `0x0801` (with a zero
16-bit reserved field) or `0x0901`; in every other case it fails with a
decompression error. -/
theorem claim_C7 (s : List Nat) :
    (Common.CompressedHeaderInfo.parse_stream s).isOk = true ↔
      (18 ≤ s.length ∧ s.take 4 = [0xa8, 0x9f, 0x65, 0x72] ∧
       (beBytesToNat ((s.drop 4).take 2) = 0x12 ∨
         beBytesToNat ((s.drop 4).take 2) = 0) ∧
       ((beBytesToNat ((s.drop 6).take 2) = 0x0801 ∧
           beBytesToNat ((s.drop 16).take 2) = 0) ∨
         beBytesToNat ((s.drop 6).take 2) = 0x0901)) := by
  rw [Common.CompressedHeaderInfo.parse_stream]
  have e1 : (s.take 18).take 4 = s.take 4 := by simp [List.take_take]
  have e2 : ((s.take 18).drop 4).take 2 = (s.drop 4).take 2 := by
    simp [List.drop_take, List.take_take]
  have e3 : ((s.take 18).drop 6).take 2 = (s.drop 6).take 2 := by
    simp [List.drop_take, List.take_take]
  have e5 : (((s.take 18).drop 12).drop 4).take 2 = (s.drop 16).take 2 := by
    simp [List.drop_drop, List.drop_take, List.take_take]
  rcases Nat.lt_or_ge s.length 18 with h18 | h18
  · rw [if_pos (by simp only [List.length_take]; omega)]
    simp only [Except.isOk, Except.toBool, Bool.false_eq_true, false_iff]
    rintro ⟨h1, -, -, -⟩
    omega
  · rw [if_neg (by simp only [List.length_take]; omega)]
    simp only [e1, e2, e3, e5]
    split_ifs with h1 h2 h3 h4 h5 <;>
      simp only [Except.isOk, Except.toBool, Bool.false_eq_true, false_iff, true_iff,
        ne_eq, not_not] at * <;>
      first
        | tauto
        | (rintro ⟨-, -, -, hx⟩; rcases hx with ⟨hxa, hxb⟩ | hxc <;> omega)

end Rsrcfork

namespace Rsrcfork

theorem IOUtils.effectiveReadSize_toNat_le (length pos : Nat) (size : Option Int)
    (hpos : pos ≤ length) :
    (IOUtils.SubStream.effectiveReadSize length pos size).toNat ≤ length - pos := by
  rcases size with _ | sz <;>
    simp only [IOUtils.SubStream.effectiveReadSize] <;>
    [skip; split_ifs] <;> omega

/-- Claim C10: a `SubStream` is a bounded read-only view: construction
fails exactly when the window extends past the end of the outer stream;
every read returns a contiguous segment of the window starting at the
current position; and the seek position stays within `[0, window length]`
after every read and every seek. -/
theorem claim_C10 (outer : List Nat) (start_offset length : Nat)
    (s s2 : IOUtils.SubStream) (size : Option Int) (offset : Int)
    (whence : IOUtils.Whence)
    (hpos : s.seek_position ≤ s.length) :
    ((IOUtils.SubStream.init outer start_offset length).isOk = true ↔
      start_offset + length ≤ outer.length) ∧
    ((s.read size).1 =
      (((s.outer.drop s.start_offset).take s.length).drop s.seek_position).take
        ((s.read size).1.length) ∧
      (s.read size).2.seek_position ≤ (s.read size).2.length) ∧
    (s.seek offset whence = .ok s2 → s2.seek_position ≤ s2.length) := by
  refine ⟨?_, ⟨?_, ?_⟩, ?_⟩
  · rw [IOUtils.SubStream.init]
    split_ifs with h
    · simp only [Except.isOk, Except.toBool, Bool.false_eq_true, false_iff]
      omega
    · simp only [Except.isOk, Except.toBool, true_iff]
      omega
  · have hk := IOUtils.effectiveReadSize_toNat_le s.length s.seek_position size hpos
    have hres : (s.read size).1 = (s.outer.drop (s.start_offset + s.seek_position)).take
        (IOUtils.SubStream.effectiveReadSize s.length s.seek_position size).toNat := rfl
    rw [hres, List.length_take, List.drop_take, List.drop_drop, List.take_take,
      List.length_drop]
    refine (List.take_eq_take.mpr ?_).symm
    rw [List.length_drop]
    omega
  · have hk := IOUtils.effectiveReadSize_toNat_le s.length s.seek_position size hpos
    show s.seek_position + (s.read size).1.length ≤ s.length
    have : (s.read size).1.length ≤
        (IOUtils.SubStream.effectiveReadSize s.length s.seek_position size).toNat := by
      show ((s.outer.drop (s.start_offset + s.seek_position)).take _).length ≤ _
      rw [List.length_take]
      omega
    omega
  · rcases whence with _ | _ | _ <;>
      simp only [IOUtils.SubStream.seek]
    · split_ifs with h
      · intro hcon
        cases hcon
      · intro hok
        cases hok
        show (max 0 (min (s.length : Int) offset)).toNat ≤ s.length
        omega
    · intro hok
      cases hok
      show (max 0 (min (s.length : Int) _)).toNat ≤ s.length
      omega
    · intro hok
      cases hok
      show (max 0 (min (s.length : Int) _)).toNat ≤ s.length
      omega


/-- A concrete `SubStream` used by the claim C10 witness: a 3-byte window
at offset 1 of a 5-byte stream, seek position 1. -/
def c10Sample : IOUtils.SubStream :=
  { outer := [1, 2, 3, 4, 5], start_offset := 1, length := 3, seek_position := 1 }

/-- Claim C10 witness: the theorem applied to `c10Sample` with a
too-large read size, a relative seek, and an out-of-range window
construction. -/
theorem claim_C10_witness :
    ((IOUtils.SubStream.init [1, 2, 3, 4, 5] 6 2).isOk = true ↔
      6 + 2 ≤ ([1, 2, 3, 4, 5] : List Nat).length) ∧
    ((c10Sample.read (some 5)).1 =
      (((c10Sample.outer.drop c10Sample.start_offset).take c10Sample.length).drop
        c10Sample.seek_position).take ((c10Sample.read (some 5)).1.length) ∧
      (c10Sample.read (some 5)).2.seek_position ≤ (c10Sample.read (some 5)).2.length) ∧
    (c10Sample.seek 1 .seekCur =
        .ok { outer := [1, 2, 3, 4, 5], start_offset := 1, length := 3,
              seek_position := 2 } →
      ({ outer := [1, 2, 3, 4, 5], start_offset := 1, length := 3,
         seek_position := 2 } : IOUtils.SubStream).seek_position ≤
        ({ outer := [1, 2, 3, 4, 5], start_offset := 1, length := 3,
           seek_position := 2 } : IOUtils.SubStream).length) :=
  claim_C10 [1, 2, 3, 4, 5] 6 2 c10Sample
    { outer := [1, 2, 3, 4, 5], start_offset := 1, length := 3, seek_position := 2 }
    (some 5) 1 .seekCur (by decide)

end Rsrcfork

namespace Rsrcfork

theorem untagged_odd_char (n : Nat) (table : List (List Nat))
    (hodd : n % 2 = 1) :
    ∀ (init : List Nat) (last : Nat),
      (∀ x ∈ init, x < table.length) →
      Dcmp2Old.decompress_system_untagged n table (init ++ [last]) =
        .ok ((init.map (fun x => table.getD x [])).join ++ [last]) := by
  intro init
  induction init with
  | nil =>
    intro last h
    simp [Dcmp2Old.decompress_system_untagged, hodd]
  | cons x init ih =>
    intro last h
    have hx : x < table.length := h x (by simp)
    obtain ⟨e, he⟩ : ∃ e, table.get? x = some e :=
      ⟨table.get ⟨x, hx⟩, List.get?_eq_get hx⟩
    rw [List.cons_append, Dcmp2Old.decompress_system_untagged,
      if_neg (by simp), he]
    rw [ih last (fun y hy => h y (List.mem_cons_of_mem x hy))]
    have hgetD : table.getD x [] = e := by
      have h1 := List.getD_eq_get table [] hx
      have h2 := List.get?_eq_get (l := table) hx
      rw [he] at h2
      rw [h1, Option.some_inj.mp h2.symm]
    simp [bind, Except.bind, hgetD]
    rw [← List.getD_eq_getElem?_getD, hgetD]

/-- Claim C9 counterexample: in tagged mode with declared length 1 (odd)
and input `[0x80, 0x00]`, the decoder reads the tag `0x80` and is then
positioned at the last remaining input byte; the claim says that byte is
emitted verbatim as a one-byte literal (output `[0x00]`, as the
claim-literal decoder computes), but the source interprets it as a table
reference and emits the 2-byte table entry `[0x00, 0x00]`. -/
theorem claim_C9_counterexample :
    Dcmp2Old.decompress_system_tagged 1 Dcmp2Old.DEFAULT_TABLE [0x80, 0] =
      .ok [0, 0] ∧
    Dcmp2Old.decompress_tagged_per_claim 1 Dcmp2Old.DEFAULT_TABLE [0x80, 0] =
      .ok [0] ∧
    Dcmp2Old.decompress_system_tagged 1 Dcmp2Old.DEFAULT_TABLE [0x80, 0] ≠
      Dcmp2Old.decompress_tagged_per_claim 1 Dcmp2Old.DEFAULT_TABLE [0x80, 0] := by
  have h1 : Dcmp2Old.decompress_system_tagged 1 Dcmp2Old.DEFAULT_TABLE [0x80, 0] =
      .ok [0, 0] := by rfl
  have h2 : Dcmp2Old.decompress_tagged_per_claim 1 Dcmp2Old.DEFAULT_TABLE [0x80, 0] =
      .ok [0] := by rfl
  refine ⟨h1, h2, ?_⟩
  rw [h1, h2]
  simp

/-- Claim C9 (amended): in untagged mode the rule holds at every step —
for an odd declared length, every byte but the last is a table reference
and the final byte is emitted verbatim; in tagged mode the rule applies
only when the decoder is about to read a tag byte (in particular, a
single remaining byte at a block boundary is emitted verbatim; within a
block, a trailing byte under a reference bit is still consumed as a table
reference, as the counterexample shows). -/
theorem claim_C9_amended (n : Nat) (table : List (List Nat))
    (init : List Nat) (last tag : Nat) (hodd : n % 2 = 1)
    (hinit : ∀ x ∈ init, x < table.length) :
    Dcmp2Old.decompress_system_untagged n table (init ++ [last]) =
      .ok ((init.map (fun x => table.getD x [])).join ++ [last]) ∧
    Dcmp2Old.decompress_system_tagged n table [tag] = .ok [tag] := by
  constructor
  · exact untagged_odd_char n table hodd init last hinit
  · simp [Dcmp2Old.decompress_system_tagged, Dcmp2Old.taggedLoop, hodd]

/-- Claim C9 witness: the amended theorem applied with declared length 1,
the two-entry reference decode `[0, 0, 7]`, and the single-byte tagged
input `[5]`. -/
theorem claim_C9_witness :
    Dcmp2Old.decompress_system_untagged 1 [[9, 9]] ([0, 0] ++ [7]) =
      .ok ((([0, 0] : List Nat).map (fun x => [[9, 9]].getD x [])).join ++ [7]) ∧
    Dcmp2Old.decompress_system_tagged 1 [[9, 9]] [5] = .ok [5] :=
  claim_C9_amended 1 [[9, 9]] [0, 0] 7 5 (by decide) (by decide)

end Rsrcfork

namespace Rsrcfork

theorem fixChunks_nil (n acc : Nat) : Dcmp0New.fixChunks n acc [] = [] := rfl

theorem fixChunks_no_cross (n : Nat) :
    ∀ (cs : List (List Nat)) (acc : Nat),
      (∀ k, k < cs.length → acc + ((cs.take (k + 1)).join).length ≠ n + 1) →
      Dcmp0New.fixChunks n acc cs = cs.join := by
  intro cs
  induction cs with
  | nil => intro acc h; simp [Dcmp0New.fixChunks]
  | cons c cs ih =>
    intro acc h
    rw [Dcmp0New.fixChunks, if_neg ?hc]
    case hc =>
      rintro ⟨-, hsum⟩
      exact h 0 (by simp) (by simpa using hsum)
    rw [ih (acc + c.length) ?hshift]
    case hshift =>
      intro k hk
      have hh := h (k + 1) (by simpa using hk)
      rw [List.take_succ_cons,
        show ((c :: List.take (k + 1) cs).join) = c ++ (List.take (k + 1) cs).join
          from rfl,
        List.length_append] at hh
      omega
    rfl

theorem fixChunks_cross_last (n : Nat) :
    ∀ (cs : List (List Nat)) (acc : Nat) (c : List Nat),
      n % 2 = 1 → c ≠ [] →
      (∀ k, k < cs.length → acc + ((cs.take (k + 1)).join).length ≠ n + 1) →
      acc + cs.join.length + c.length = n + 1 →
      Dcmp0New.fixChunks n acc (cs ++ [c]) = (cs.join ++ c).dropLast := by
  intro cs
  induction cs with
  | nil =>
    intro acc c hodd hc h hsum
    rw [List.nil_append, Dcmp0New.fixChunks,
      if_pos ⟨by omega, by simp at hsum ⊢; omega⟩, fixChunks_nil]
    simp
  | cons c' cs ih =>
    intro acc c hodd hc h hsum
    rw [List.cons_append, Dcmp0New.fixChunks, if_neg ?hc2]
    case hc2 =>
      rintro ⟨-, hx⟩
      exact h 0 (by simp) (by simpa using hx)
    rw [ih (acc + c'.length) c hodd hc ?hsh ?hsm]
    case hsh =>
      intro k hk
      have hh := h (k + 1) (by simpa using hk)
      rw [List.take_succ_cons,
        show ((c' :: List.take (k + 1) cs).join) = c' ++ (List.take (k + 1) cs).join
          from rfl,
        List.length_append] at hh
      omega
    case hsm =>
      rw [show ((c' :: cs).join) = c' ++ cs.join from rfl,
        List.length_append] at hsum
      omega
    have hne : cs.join ++ c ≠ [] := by
      simp [hc]
    show c' ++ (cs.join ++ c).dropLast = ((c' :: cs).join ++ c).dropLast
    rw [show (c' :: cs).join = c' ++ cs.join from rfl, List.append_assoc,
      List.dropLast_append_of_ne_nil c' hne]

/-- Claim C3 counterexample: for the streaming dcmp0 implementation with
declared decompressed length 1 (odd) and input
`[0x01, 65, 66, 0x01, 67, 68, 0xff]`, the tag loop yields the chunks
`[65, 66]` and `[67, 68]` (4 bytes in total, which is not exactly one more
than the declared length), so the claim requires the decoded output to be
returned unchanged — but the decoder drops the byte `66` out of the middle
and returns `[65, 67, 68]`, which is neither the loop output nor the loop
output with its final byte dropped. -/
theorem claim_C3_counterexample :
    Dcmp0New.decompress_stream_inner (.type8 0x12 0x801 1 0 0 0)
      [0x01, 65, 66, 0x01, 67, 68, 0xff] = .ok [[65, 66], [67, 68]] ∧
    (1 : Nat) % 2 = 1 ∧
    ([[65, 66], [67, 68]] : List (List Nat)).join.length ≠ 1 + 1 ∧
    Dcmp0New.decompress_stream (.type8 0x12 0x801 1 0 0 0)
      [0x01, 65, 66, 0x01, 67, 68, 0xff] = .ok [65, 67, 68] ∧
    ([65, 67, 68] : List Nat) ≠ ([[65, 66], [67, 68]] : List (List Nat)).join ∧
    ([65, 67, 68] : List Nat) ≠
      (([[65, 66], [67, 68]] : List (List Nat)).join).dropLast :=
  ⟨by rfl, by rfl, by decide, by rfl, by decide, by decide⟩

/-- Claim C3 (amended): the buffered dcmp0 implementation behaves exactly
as the claim states — if the declared length is odd and the tag loop's
output is exactly one byte longer, the final byte is dropped, otherwise
the decoded output is returned unchanged.  The streaming implementation
instead applies the rule chunk by chunk: each yielded chunk is passed
through unchanged unless the cumulative output length would become
exactly declared+1 (declared odd), in which case that chunk's last byte
is dropped; when no chunk hits the threshold the result is the loop
output unchanged, and when the threshold is hit at the final chunk the
result is the loop output with its final byte dropped, coinciding with
the buffered rule. -/
theorem claim_C3_amended :
    (∀ (data : List Nat) (n : Nat) (d : List Nat),
      Dcmp0Old.loop data (data.length + 1) 0 [] [] = .ok d →
      Dcmp0Old.decompress data n =
        .ok (if n % 2 ≠ 0 ∧ d.length = n + 1 then d.dropLast else d)) ∧
    (∀ (hdr : Common.CompressedHeaderInfo) (s : List Nat) (cs : List (List Nat)),
      Dcmp0New.decompress_stream_inner hdr s = .ok cs →
      Dcmp0New.decompress_stream hdr s =
        .ok (Dcmp0New.fixChunks hdr.decompressed_length 0 cs)) ∧
    (∀ (n : Nat) (cs : List (List Nat)),
      (∀ k, k < cs.length → 0 + ((cs.take (k + 1)).join).length ≠ n + 1) →
      Dcmp0New.fixChunks n 0 cs = cs.join) ∧
    (∀ (n : Nat) (cs : List (List Nat)) (c : List Nat),
      n % 2 = 1 → c ≠ [] →
      (∀ k, k < cs.length → 0 + ((cs.take (k + 1)).join).length ≠ n + 1) →
      0 + cs.join.length + c.length = n + 1 →
      Dcmp0New.fixChunks n 0 (cs ++ [c]) = (cs.join ++ c).dropLast) := by
  refine ⟨?_, ?_, ?_, ?_⟩
  · intro data n d h
    rw [Dcmp0Old.decompress, h]
    show (if n % 2 ≠ 0 ∧ d.length = n + 1 then
        (Except.ok d.dropLast : Except Err (List Nat)) else .ok d) = _
    split_ifs <;> rfl
  · intro hdr s cs h
    rw [Dcmp0New.decompress_stream, h]
    rfl
  · intro n cs h
    exact fixChunks_no_cross n cs 0 h
  · intro n cs c h1 h2 h3 h4
    exact fixChunks_cross_last n cs 0 c h1 h2 h3 h4

/-- Claim C3 witness: the amended theorem applied to the buffered decoder
on `[0x01, 65, 66, 0xff]` with declared length 1, the streaming decoder on
the same input, and the two chunk-fixup rules at concrete chunk lists. -/
theorem claim_C3_witness :
    Dcmp0Old.decompress [0x01, 65, 66, 0xff] 1 =
      .ok (if (1 : Nat) % 2 ≠ 0 ∧ ([65, 66] : List Nat).length = 1 + 1
        then ([65, 66] : List Nat).dropLast else [65, 66]) ∧
    Dcmp0New.decompress_stream (.type8 0x12 0x801 1 0 0 0) [0x01, 65, 66, 0xff] =
      .ok (Dcmp0New.fixChunks
        (Common.CompressedHeaderInfo.type8 0x12 0x801 1 0 0 0).decompressed_length 0
        [[65, 66]]) ∧
    Dcmp0New.fixChunks 3 0 [[65, 66]] = ([[65, 66]] : List (List Nat)).join ∧
    Dcmp0New.fixChunks 1 0 ([] ++ [[65, 66]]) =
      (([] : List (List Nat)).join ++ [65, 66]).dropLast :=
  ⟨claim_C3_amended.1 [0x01, 65, 66, 0xff] 1 [65, 66] (by rfl),
   claim_C3_amended.2.1 (.type8 0x12 0x801 1 0 0 0) [0x01, 65, 66, 0xff]
     [[65, 66]] (by rfl),
   claim_C3_amended.2.2.1 3 [[65, 66]] (by decide),
   claim_C3_amended.2.2.2 1 [] [65, 66] (by decide) (by decide) (by decide)
     (by decide)⟩

end Rsrcfork

namespace Rsrcfork

/-- A dcmp0-compressed resource (header declaring 2 decompressed bytes,
payload decoding to `AB`). -/
def c2GoodData : List Nat :=
  [0xa8, 0x9f, 0x65, 0x72, 0x00, 0x12, 0x08, 0x01, 0, 0, 0, 2,
   0, 0, 0, 0, 0, 0, 0x01, 65, 66, 0xff]

/-- The same compressed resource but with a declared decompressed length
of 4, which the 2-byte decode cannot match. -/
def c2BadData : List Nat :=
  [0xa8, 0x9f, 0x65, 0x72, 0x00, 0x12, 0x08, 0x01, 0, 0, 0, 4,
   0, 0, 0, 0, 0, 0, 0x01, 65, 66, 0xff]

/-- Claim C2: whenever the top-level `decompress` returns a result, the
result's length equals the header's declared decompressed length; and
whenever the selected codec returns data of a different length, the
top-level `decompress` reports a decompression error rather than
returning it truncated or padded. -/
theorem claim_C2 (data : List Nat) :
    (∀ out, CompressOld.decompress data = .ok out →
      ∃ header_info, CompressOld.parse data = .ok header_info ∧
        out.length = header_info.decompressed_length) ∧
    (∀ header_info inner, CompressOld.parse data = .ok header_info →
      CompressOld.dispatch header_info (data.drop header_info.header_length) =
        .ok inner →
      inner.length ≠ header_info.decompressed_length →
      CompressOld.decompress data = .error .decompressError) := by
  constructor
  · intro out h
    simp only [CompressOld.decompress, bind, Except.bind] at h
    cases hp : CompressOld.parse data with
    | error e => rw [hp] at h; cases h
    | ok header_info =>
      simp only [hp] at h
      cases hd : CompressOld.dispatch header_info
          (data.drop header_info.header_length) with
      | error e => simp only [hd] at h; cases h
      | ok dec =>
        simp only [hd] at h
        by_cases hl : dec.length ≠ header_info.decompressed_length
        · rw [if_pos hl] at h
          cases h
        · rw [if_neg hl] at h
          cases h
          exact ⟨header_info, rfl, by omega⟩
  · intro header_info inner hp hd hne
    simp only [CompressOld.decompress, bind, Except.bind, hp, hd, if_pos hne]

/-- Claim C2 witness: the theorem applied to a valid dcmp0-compressed
resource (length matches) and to one whose declared length cannot be met
(reported as a decompression error). -/
theorem claim_C2_witness :
    (∃ header_info, CompressOld.parse c2GoodData = .ok header_info ∧
      ([65, 66] : List Nat).length = header_info.decompressed_length) ∧
    CompressOld.decompress c2BadData = .error .decompressError :=
  ⟨(claim_C2 c2GoodData).1 [65, 66] (by rfl),
   (claim_C2 c2BadData).2 (.application 0x12 0x801 4 0 0 0) [65, 66]
     (by rfl) (by rfl) (by decide)⟩

end Rsrcfork

namespace Rsrcfork

/-- The `ResourceFileData` produced by opening `emptyTypesContainer`. -/
def emptyTypesResourceFile : Api.ResourceFileData :=
  { data_offset := 256, map_offset := 256, data_length := 0, map_length := 30
    file_attributes := 0, map_type_list_offset := 28, map_name_list_offset := 30
    reference_counts := [], references := [] }

theorem Api.read_header_ok (data : List Nat) (hdr : Api.HeaderInfo) (pos : Nat)
    (h : Api.read_header data = .ok (hdr, pos)) :
    hdr.data_offset = 256 ∧ pos = 256 ∧ beBytesToNat (data.take 4) = 256 := by
  simp only [Api.read_header, bind, Except.bind] at h
  cases hs : Api.stream_unpack data 0 256 with
  | error e => rw [hs] at h; cases h
  | ok v =>
    have hv : v.2 = 256 := by
      simp only [Api.stream_unpack] at hs
      split at hs
      · cases hs
        omega
      · cases hs
    have hv1 : v.1 = (data.drop 0).take 256 := by
      simp only [Api.stream_unpack] at hs
      split at hs
      · cases hs
        rfl
      · cases hs
    simp only [hs] at h
    split at h
    · cases h
    · rename_i hcond
      cases h
      have hd := not_ne_iff.mp hcond
      have hX : beBytesToNat (v.1.take 4) = 256 := hd.symm.trans hv
      rw [hv1] at hX
      refine ⟨hd.symm.trans hv, hv, ?_⟩
      simpa [List.take_take] using hX

theorem open_ok_data_offset (data : List Nat) (rf : Api.ResourceFileData)
    (h : Api.ResourceFile.open data = .ok rf) :
    rf.data_offset = 256 ∧ beBytesToNat (data.take 4) = 256 := by
  simp only [Api.ResourceFile.open, bind, Except.bind] at h
  cases hh : Api.read_header data with
  | error e => rw [hh] at h; cases h
  | ok v =>
    simp only [hh] at h
    obtain ⟨h1, -, h3⟩ := Api.read_header_ok data v.1 v.2 (by rw [hh])
    cases hm : Api.read_map_header data v.1.map_offset with
    | error e => simp only [hm] at h; cases h
    | ok w =>
      simp only [hm] at h
      cases ht : Api.read_all_resource_types data w.2 with
      | error e => simp only [ht] at h; cases h
      | ok t =>
        simp only [ht] at h
        cases hr : Api.read_all_references data t.2
            (t.1.foldl (fun m e => Api.dictUpdate e.1 e.2.1 m) []) with
        | error e => simp only [hr] at h; cases h
        | ok r =>
          simp only [hr] at h
          cases h
          exact ⟨h1, h3⟩

theorem Api.read_resource_type_entries_length (data : List Nat) :
    ∀ (n pos : Nat) (entries : List (List Nat × Nat × Nat)) (pos2 : Nat),
      Api.read_resource_type_entries data pos n = .ok (entries, pos2) →
      entries.length = n := by
  intro n
  induction n with
  | zero =>
    intro pos entries pos2 h
    cases h
    rfl
  | succ n ih =>
    intro pos entries pos2 h
    simp only [Api.read_resource_type_entries, bind, Except.bind] at h
    cases hs : Api.stream_unpack data pos 8 with
    | error e => rw [hs] at h; cases h
    | ok v =>
      simp only [hs] at h
      cases ht : Api.read_resource_type_entries data v.2 n with
      | error e => simp only [ht] at h; cases h
      | ok w =>
        simp only [ht] at h
        cases h
        simp [ih v.2 w.1 w.2 ht]

theorem Api.read_all_resource_types_length (data : List Nat) (pos : Nat)
    (entries : List (List Nat × Nat × Nat)) (pos2 : Nat)
    (h : Api.read_all_resource_types data pos = .ok (entries, pos2)) :
    entries.length =
      Api.decodeMinusOneCount (beBytesToNat ((data.drop pos).take 2)) := by
  simp only [Api.read_all_resource_types, bind, Except.bind] at h
  cases hs : Api.stream_unpack data pos 2 with
  | error e => rw [hs] at h; cases h
  | ok v =>
    simp only [hs] at h
    have hv1 : v.1 = (data.drop pos).take 2 := by
      simp only [Api.stream_unpack] at hs
      split at hs
      · cases hs
        rfl
      · cases hs
    rw [hv1] at h
    exact Api.read_resource_type_entries_length data _ _ entries pos2 h

instance instDecEqExcept {ε α : Type} [DecidableEq ε] [DecidableEq α] :
    DecidableEq (Except ε α) := fun x y =>
  match x, y with
  | .ok a, .ok b =>
    if h : a = b then isTrue (by rw [h])
    else isFalse (by intro hc; cases hc; exact h rfl)
  | .error a, .error b =>
    if h : a = b then isTrue (by rw [h])
    else isFalse (by intro hc; cases hc; exact h rfl)
  | .ok _, .error _ => isFalse (by intro hc; cases hc)
  | .error _, .ok _ => isFalse (by intro hc; cases hc)

set_option maxRecDepth 100000 in

set_option maxRecDepth 100000 in
/-- Claim C5 counterexample: the container header is 256 bytes, not 160.
A container whose header declares data offset 256 — which is not 160, the
position after the claim's supposed 160-byte header — opens successfully,
while an otherwise identical container declaring offset 160 fails with a
format error: the parser compares the declared offset against stream
position 256. -/
theorem claim_C5_counterexample :
    Api.ResourceFile.open emptyTypesContainer = .ok emptyTypesResourceFile ∧
    emptyTypesResourceFile.data_offset ≠ 160 ∧
    Api.ResourceFile.open badOffsetContainer = .error .invalidResourceFile :=
  ⟨by decide, by decide, by decide⟩

/-- Claim C5 (amended): opening a container fails with a format error, and
no partial container object is produced (the result type is all-or-
nothing), whenever the declared data-section offset in the 256-byte
container header does not equal the stream position immediately following
that header (256): every successful open has data offset exactly 256, and
a container whose declared offset differs from 256 can never open. -/
theorem claim_C5_amended (data : List Nat) :
    (∀ rf, Api.ResourceFile.open data = .ok rf →
      rf.data_offset = 256 ∧ beBytesToNat (data.take 4) = 256) ∧
    (beBytesToNat (data.take 4) ≠ 256 →
      ∀ rf, Api.ResourceFile.open data ≠ .ok rf) :=
  ⟨fun rf h => open_ok_data_offset data rf h,
   fun hne rf hok => hne (open_ok_data_offset data rf hok).2⟩

set_option maxRecDepth 100000 in
/-- Claim C5 witness: the amended theorem applied to the valid container
(data offset 256) and to the container declaring offset 160. -/
theorem claim_C5_witness :
    (emptyTypesResourceFile.data_offset = 256 ∧
      beBytesToNat (emptyTypesContainer.take 4) = 256) ∧
    Api.ResourceFile.open badOffsetContainer ≠ .ok emptyTypesResourceFile :=
  ⟨(claim_C5_amended emptyTypesContainer).1 emptyTypesResourceFile (by decide),
   (claim_C5_amended badOffsetContainer).2 (by decide) emptyTypesResourceFile⟩

set_option maxRecDepth 100000 in
/-- Claim C6: the number of type entries read from the type list is the
stored count-minus-one field plus 1, reduced modulo 65536 (and each
type's resource count field is decoded by the same
`decodeMinusOneCount`); in particular a container whose stored type-count
field is `0xffff` has an empty type table, opens successfully, and yields
an empty enumeration. -/
theorem claim_C6 :
    (∀ stored, Api.decodeMinusOneCount stored = (stored + 1) % 65536) ∧
    Api.decodeMinusOneCount 0xffff = 0 ∧
    (∀ (data : List Nat) (pos : Nat) (entries : List (List Nat × Nat × Nat))
      (pos2 : Nat),
      Api.read_all_resource_types data pos = .ok (entries, pos2) →
      entries.length =
        Api.decodeMinusOneCount (beBytesToNat ((data.drop pos).take 2))) ∧
    Api.ResourceFile.open emptyTypesContainer = .ok emptyTypesResourceFile ∧
    emptyTypesResourceFile.references = [] :=
  ⟨fun _ => rfl, rfl,
   fun data pos entries pos2 h =>
     Api.read_all_resource_types_length data pos entries pos2 h,
   by decide, rfl⟩

set_option maxRecDepth 100000 in
/-- Claim C6 witness: the type-count part of the theorem applied at the
all-ones type-count field of `emptyTypesContainer` (its type list starts
at position 284). -/
theorem claim_C6_witness :
    ([] : List (List Nat × Nat × Nat)).length =
      Api.decodeMinusOneCount
        (beBytesToNat ((emptyTypesContainer.drop 284).take 2)) :=
  claim_C6.2.2.1 emptyTypesContainer 284 [] 286 (by decide)

end Rsrcfork

namespace Rsrcfork

set_option maxRecDepth 1000000 in
/-- Claim C1 (code bug): in the old single-file module, streaming-mode and
seekable-mode opens of the same container bytes agree on the enumeration
(the same one type `TEST` with one resource), but resolving the resource
diverges: the streaming path stores data blocks and names keyed by their
*absolute* stream position while `__getitem__` looks them up by the
*relative* offsets of the reference entry, so accessing the resource
raises `KeyError`, while the seeking path returns its data `[0xab]`. -/
theorem claim_C1_code_bug :
    Except.map RF1.StreamingFile.reference_counts
      (RF1.init_streaming oneResourceContainer) =
      .ok [([0x54, 0x45, 0x53, 0x54], 1)] ∧
    Except.map RF1.SeekingFile.reference_counts
      (RF1.init_seeking oneResourceContainer) =
      .ok [([0x54, 0x45, 0x53, 0x54], 1)] ∧
    (RF1.init_streaming oneResourceContainer >>= fun f =>
      RF1.getItemStreaming f [0x54, 0x45, 0x53, 0x54] 1) = .error .keyError ∧
    (RF1.init_seeking oneResourceContainer >>= fun f =>
      RF1.getItemSeeking oneResourceContainer f [0x54, 0x45, 0x53, 0x54] 1) =
      .ok { name := none, attributes := 0, data := [0xab] } :=
  ⟨by decide, by decide, by decide, by decide⟩

end Rsrcfork
